import Mathlib

set_option maxRecDepth 4000

/-!
Shallow embedding of the woomcp WooCommerce/WordPress MCP gateway
(`src/index.ts` and `src/sse-server.ts`): credential resolution, method
dispatch, upstream request construction, meta-data read-modify-write and
JSON-RPC envelope handling, with theorems checking the specification's
claims against these definitions.
-/

/-- JSON-like values carried in request parameters and meta-data entries.
Objects and arrays are collapsed to an opaque `obj` marker: the dispatcher
never inspects inside payload objects, only passes them through, and JS
truthiness of objects and arrays is uniformly `true`. -/
inductive JsonVal where
  | null
  | bool (b : Bool)
  | num (n : Int)
  | str (s : String)
  | obj
deriving DecidableEq, Repr

/-- JS truthiness of a `JsonVal` (`!!v`). -/
def JsonVal.truthy : JsonVal → Bool
  | .null => false
  | .bool b => b
  | .num n => decide (n ≠ 0)
  | .str s => decide (s ≠ "")
  | .obj => true

/-- JS `a || b` for an optional string `a` (absent and `""` are falsy). -/
def jsOrStr : Option String → String → String
  | none, d => d
  | some s, d => if s = "" then d else s

/-- JS `a || b` for an optional number `a` (absent and `0` are falsy). -/
def jsOrNat : Option Nat → Nat → Nat
  | none, d => d
  | some n, d => if n = 0 then d else n

/-- JS `a || b` for an optional boolean `a` (absent and `false` are falsy). -/
def jsOrBool : Option Bool → Bool → Bool
  | none, d => d
  | some b, d => if b then b else d

/-- JS truthiness of an optional number parameter. -/
def truthyN (o : Option Nat) : Bool :=
  match o with
  | none => false
  | some n => decide (n ≠ 0)

/-- JS truthiness of an optional string parameter. -/
def truthyS (o : Option String) : Bool :=
  match o with
  | none => false
  | some s => decide (s ≠ "")

/-- JS truthiness of an optional `JsonVal` parameter. -/
def truthyV (o : Option JsonVal) : Bool :=
  match o with
  | none => false
  | some v => v.truthy

/-- Render a boolean the way axios serialises it into a query string. -/
def boolStr (b : Bool) : String := if b then "true" else "false"

/-- Interpolate an optional numeric id into a path (guarded by a truthiness
check before use, so the `0` default is never observable). -/
def natP (o : Option Nat) : String := toString (o.getD 0)

/-- JS object spread `{ ...base, ...extra }` restricted to string values:
keys of `base` that reappear in `extra` take the `extra` value. -/
def jsSpread (base extra : List (String × String)) : List (String × String) :=
  base.filter (fun p => extra.all (fun q => q.1 ≠ p.1)) ++ extra

/-- UTF-8 encoding of one code point, as `Buffer.from(string)` performs it. -/
def utf8Bytes (c : Nat) : List Nat :=
  if c < 128 then [c]
  else if c < 2048 then [192 + c / 64, 128 + c % 64]
  else if c < 65536 then [224 + c / 4096, 128 + (c / 64) % 64, 128 + c % 64]
  else [240 + c / 262144, 128 + (c / 4096) % 64, 128 + (c / 64) % 64, 128 + c % 64]

/-- UTF-8 bytes of a string. -/
def strUtf8 (s : String) : List Nat := s.toList.flatMap (fun ch => utf8Bytes ch.toNat)

/-- The base64 alphabet. -/
def b64Alphabet : List Char :=
  "ABCDEFGHIJKLMNOPQRSTUVWXYZabcdefghijklmnopqrstuvwxyz0123456789+/".toList

/-- Digit of the base64 alphabet. -/
def b64Char (n : Nat) : Char := b64Alphabet.getD n 'A'

/-- Base64 digits of a byte sequence, with `=` padding
(`Buffer.prototype.toString("base64")`). -/
def base64Chunks : List Nat → List Char
  | [] => []
  | [a] => [b64Char (a / 4), b64Char ((a % 4) * 16), '=', '=']
  | [a, b] => [b64Char (a / 4), b64Char ((a % 4) * 16 + b / 16), b64Char ((b % 16) * 4), '=']
  | a :: b :: c :: rest =>
    b64Char (a / 4) :: b64Char ((a % 4) * 16 + b / 16) ::
      b64Char ((b % 16) * 4 + c / 64) :: b64Char (c % 64) :: base64Chunks rest

/-- `Buffer.from(s).toString("base64")`. -/
def base64 (s : String) : String := String.mk (base64Chunks (strUtf8 s))

/-- One WooCommerce meta-data entry (`WooMetaData`): `{ key, value }`. -/
structure MetaEntry where
  key : String
  value : JsonVal
deriving DecidableEq, Repr

/-- An upstream response body, as far as the dispatcher inspects it: the
`meta_data` array (possibly absent) and the rest of the payload, opaque. -/
structure Entity where
  meta_data : Option (List MetaEntry) := none
  raw : JsonVal := .null
deriving DecidableEq, Repr

/-- The empty upstream response body. -/
def Entity.empty : Entity := {}

/-- HTTP verbs used by the dispatcher. -/
inductive Verb where
  | get
  | post
  | put
  | delete
deriving DecidableEq, Repr

/-- Request bodies, one constructor per body shape the source builds. -/
inductive ReqBody where
  | raw (v : JsonVal)
  | metaData (md : List MetaEntry)
  | keyValue (key : String) (value : JsonVal)
  | valueOnly (value : JsonVal)
  | createPost (title content status : String)
  | updatePost (title content status : Option String)
deriving DecidableEq, Repr

/-- An axios client as configured by `axios.create`: base URL plus
client-level authentication (query parameters or a Basic header). -/
structure Client where
  baseURL : String
  authQuery : List (String × String)
  authHeader : Option String
deriving DecidableEq, Repr

/-- A fully built upstream HTTP request. -/
structure HttpRequest where
  verb : Verb
  baseURL : String
  authQuery : List (String × String)
  authHeader : Option String
  path : String
  query : List (String × String)
  body : Option ReqBody
deriving DecidableEq, Repr

/-- `client.get(path, { params })`. -/
def Client.getReq (c : Client) (path : String) (query : List (String × String)) : HttpRequest :=
  ⟨.get, c.baseURL, c.authQuery, c.authHeader, path, query, none⟩

/-- `client.post(path, body)`. -/
def Client.postReq (c : Client) (path : String) (body : ReqBody) : HttpRequest :=
  ⟨.post, c.baseURL, c.authQuery, c.authHeader, path, [], some body⟩

/-- `client.put(path, body?)`. -/
def Client.putReq (c : Client) (path : String) (body : Option ReqBody) : HttpRequest :=
  ⟨.put, c.baseURL, c.authQuery, c.authHeader, path, [], body⟩

/-- `client.delete(path, { params })`. -/
def Client.deleteReq (c : Client) (path : String) (query : List (String × String)) : HttpRequest :=
  ⟨.delete, c.baseURL, c.authQuery, c.authHeader, path, query, none⟩

/-- Outcome of one upstream call, as the oracle modelling the remote store
reports it: success with a response body, an HTTP failure that carries a
response (whose body may have a `message` field), or a transport failure
with no response at all. -/
inductive UpstreamResult where
  | ok (data : Entity)
  | httpErr (bodyMessage : Option String) (transportMessage : String)
  | netErr (transportMessage : String)
deriving DecidableEq, Repr

/-- Errors raised inside `handleWooCommerceRequest` before the catch block:
`thrown` for the source's own `new Error(...)` validation throws, `axios`
for rejected upstream calls that carry a response (`isAxiosError` holds),
`plain` for rejections without a response (`isAxiosError` fails). -/
inductive InternalErr where
  | thrown (msg : String)
  | axios (bodyMessage : Option String) (transportMessage : String)
  | plain (msg : String)
deriving DecidableEq, Repr

/-- Values the dispatcher returns to the envelope: a whole response body,
a meta-data list (the `get_*_meta` reads, which default a missing field to
`[]`), or the bare `meta_data` field of a PUT response (the meta mutations,
which apply no default). -/
inductive DispatchValue where
  | entity (e : Entity)
  | metaList (l : List MetaEntry)
  | metaField (l : Option (List MetaEntry))
deriving DecidableEq, Repr

/-- Final outcome of a dispatch: the raw result or the caught error's
message. -/
inductive DispatchResult where
  | ok (v : DispatchValue)
  | error (msg : String)
deriving DecidableEq, Repr

/-- Translate the oracle's answer into the dispatcher's internal error
discipline (`isAxiosError` distinguishes the two failure shapes). -/
def toExcept : UpstreamResult → Except InternalErr Entity
  | .ok e => .ok e
  | .httpErr b t => .error (.axios b t)
  | .netErr t => .error (.plain t)

/-- The catch block of `handleWooCommerceRequest`: axios-shaped errors are
wrapped as `API error: ${response.data.message || error.message}`, all
other errors are rethrown unchanged. -/
def wrapResult : Except InternalErr DispatchValue → DispatchResult
  | .ok v => .ok v
  | .error (.thrown m) => .error m
  | .error (.axios b t) => .error ("API error: " ++ jsOrStr b t)
  | .error (.plain m) => .error m

/-- Apply the catch-block normalization to a handler outcome. -/
def finishDispatch (x : List HttpRequest × Except InternalErr DispatchValue) :
    List HttpRequest × DispatchResult :=
  (x.1, wrapResult x.2)

/-- A `throw new Error(msg)` before any upstream call. -/
def reqFail (msg : String) : List HttpRequest × Except InternalErr DispatchValue :=
  ([], .error (.thrown msg))

/-- One upstream call whose response body is returned as the result. -/
def call1 (up : HttpRequest → UpstreamResult) (req : HttpRequest) :
    List HttpRequest × Except InternalErr DispatchValue :=
  ([req], (toExcept (up req)).map .entity)

/-- Request parameters, one optional field per parameter the two
dispatchers read. Absent fields model JS `undefined`. -/
structure Params where
  siteUrl : Option String := none
  username : Option String := none
  password : Option String := none
  consumerKey : Option String := none
  consumerSecret : Option String := none
  title : Option String := none
  content : Option String := none
  status : Option String := none
  postId : Option Nat := none
  productId : Option Nat := none
  orderId : Option Nat := none
  customerId : Option Nat := none
  zoneId : Option Nat := none
  instanceId : Option Nat := none
  rateId : Option Nat := none
  couponId : Option Nat := none
  noteId : Option Nat := none
  refundId : Option Nat := none
  variationId : Option Nat := none
  attributeId : Option Nat := none
  termId : Option Nat := none
  categoryId : Option Nat := none
  tagId : Option Nat := none
  reviewId : Option Nat := none
  gatewayId : Option Nat := none
  toolId : Option Nat := none
  metaId : Option Nat := none
  slug : Option String := none
  group : Option String := none
  settingId : Option String := none
  metaKey : Option String := none
  metaValue : Option JsonVal := none
  productData : Option JsonVal := none
  orderData : Option JsonVal := none
  customerData : Option JsonVal := none
  zoneData : Option JsonVal := none
  methodData : Option JsonVal := none
  locations : Option JsonVal := none
  taxClassData : Option JsonVal := none
  taxRateData : Option JsonVal := none
  couponData : Option JsonVal := none
  noteData : Option JsonVal := none
  refundData : Option JsonVal := none
  variationData : Option JsonVal := none
  attributeData : Option JsonVal := none
  termData : Option JsonVal := none
  categoryData : Option JsonVal := none
  tagData : Option JsonVal := none
  reviewData : Option JsonVal := none
  gatewayData : Option JsonVal := none
  settingData : Option JsonVal := none
  perPage : Option Nat := none
  page : Option Nat := none
  period : Option String := none
  dateMin : Option String := none
  dateMax : Option String := none
  filters : Option (List (String × String)) := none
  force : Option Bool := none

/-- The request with no parameters at all (`{}`). -/
def Params.empty : Params := {}

/-- Process-wide defaults loaded once from the environment
(`DEFAULT_SITE_URL`, `DEFAULT_USERNAME`, `DEFAULT_PASSWORD`,
`DEFAULT_CONSUMER_KEY`, `DEFAULT_CONSUMER_SECRET`; each defaults to `""`
when the variable is unset). -/
structure Config where
  siteUrl : String := ""
  username : String := ""
  password : String := ""
  consumerKey : String := ""
  consumerSecret : String := ""
deriving DecidableEq, Repr

/-- The configuration of a process started with no environment variables. -/
def Config.empty : Config := {}

/-- The per-request resolved credentials. -/
structure Credentials where
  siteUrl : String
  username : String
  password : String
  consumerKey : String
  consumerSecret : String
deriving DecidableEq, Repr

/-- The credential fallback chain at the top of both dispatchers:
`params.<field> || DEFAULT_<FIELD>` for each of the five fields. -/
def resolveCredentials (p : Params) (cfg : Config) : Credentials :=
  { siteUrl := jsOrStr p.siteUrl cfg.siteUrl
    username := jsOrStr p.username cfg.username
    password := jsOrStr p.password cfg.password
    consumerKey := jsOrStr p.consumerKey cfg.consumerKey
    consumerSecret := jsOrStr p.consumerSecret cfg.consumerSecret }

/-- The WordPress-family method list (`wpMethods` in `index.ts`). -/
def wpMethods : List String :=
  ["create_post", "get_posts", "update_post", "get_post_meta",
   "update_post_meta", "create_post_meta", "delete_post_meta"]

/-- The WooCommerce-family method list (`wooMethods` in `index.ts`). -/
def wooMethods : List String :=
  ["get_products", "get_product", "create_product", "update_product", "delete_product",
   "get_orders", "get_order", "create_order", "update_order", "delete_order",
   "get_customers", "get_customer", "create_customer", "update_customer", "delete_customer",
   "get_sales_report", "get_products_report", "get_orders_report", "get_categories_report",
   "get_customers_report", "get_stock_report", "get_coupons_report", "get_taxes_report",
   "get_shipping_zones", "get_shipping_zone", "create_shipping_zone", "update_shipping_zone",
   "delete_shipping_zone", "get_shipping_methods", "get_shipping_zone_methods",
   "create_shipping_zone_method", "update_shipping_zone_method", "delete_shipping_zone_method",
   "get_shipping_zone_locations", "update_shipping_zone_locations",
   "get_tax_classes", "create_tax_class", "delete_tax_class",
   "get_tax_rates", "get_tax_rate", "create_tax_rate", "update_tax_rate", "delete_tax_rate",
   "get_coupons", "get_coupon", "create_coupon", "update_coupon", "delete_coupon",
   "get_order_notes", "get_order_note", "create_order_note", "delete_order_note",
   "get_order_refunds", "get_order_refund", "create_order_refund", "delete_order_refund",
   "get_product_variations", "get_product_variation", "create_product_variation",
   "update_product_variation", "delete_product_variation",
   "get_product_attributes", "get_product_attribute", "create_product_attribute",
   "update_product_attribute", "delete_product_attribute",
   "get_attribute_terms", "get_attribute_term", "create_attribute_term",
   "update_attribute_term", "delete_attribute_term",
   "get_product_categories", "get_product_category", "create_product_category",
   "update_product_category", "delete_product_category",
   "get_product_tags", "get_product_tag", "create_product_tag", "update_product_tag",
   "delete_product_tag",
   "get_product_reviews", "get_product_review", "create_product_review",
   "update_product_review", "delete_product_review",
   "get_payment_gateways", "get_payment_gateway", "update_payment_gateway",
   "get_settings", "get_setting_options", "update_setting_option",
   "get_system_status", "get_system_status_tools", "run_system_status_tool",
   "get_data", "get_continents", "get_countries", "get_currencies", "get_current_currency",
   "get_product_meta", "update_product_meta", "create_product_meta", "delete_product_meta",
   "get_order_meta", "update_order_meta", "create_order_meta", "delete_order_meta",
   "get_customer_meta", "update_customer_meta", "create_customer_meta", "delete_customer_meta"]

/-- The WordPress client of `index.ts`: base `{siteUrl}/wp-json/wp/v2` and
an `Authorization: Basic base64(username:password)` header. -/
def wpClient (creds : Credentials) : Client :=
  { baseURL := creds.siteUrl ++ "/wp-json/wp/v2"
    authQuery := []
    authHeader := some ("Basic " ++ base64 (creds.username ++ ":" ++ creds.password)) }

/-- The WooCommerce client of `index.ts`: base `{siteUrl}/wp-json/wc/v3`
and client-level `consumer_key`/`consumer_secret` query parameters. -/
def wooClient (creds : Credentials) : Client :=
  { baseURL := creds.siteUrl ++ "/wp-json/wc/v3"
    authQuery := [("consumer_key", creds.consumerKey), ("consumer_secret", creds.consumerSecret)]
    authHeader := none }

/-- Error message for a missing site URL. -/
def siteUrlMsg : String :=
  "WordPress site URL not provided in environment variables or request parameters"

/-- Error message for missing WordPress content-API credentials. -/
def wpCredsMsg : String :=
  "WordPress credentials not provided in environment variables or request parameters"

/-- Error message for missing WooCommerce store-API credentials. -/
def wooCredsMsg : String :=
  "WooCommerce API credentials not provided in environment variables or request parameters"

/-- The pagination-and-filters query object
`{ per_page: params.perPage || 10, page: params.page || 1, ...params.filters }`. -/
def listQuery (p : Params) : List (String × String) :=
  jsSpread [("per_page", toString (jsOrNat p.perPage 10)),
            ("page", toString (jsOrNat p.page 1))]
    (p.filters.getD [])

/-- The report query `{ period: params.period || "month", date_min:
params.dateMin || "", date_max: params.dateMax || "", ...params.filters }`. -/
def periodQuery (p : Params) : List (String × String) :=
  jsSpread [("period", jsOrStr p.period "month"),
            ("date_min", jsOrStr p.dateMin ""),
            ("date_max", jsOrStr p.dateMax "")]
    (p.filters.getD [])

/-- The report query combining period, date range and pagination. -/
def periodListQuery (p : Params) : List (String × String) :=
  jsSpread [("period", jsOrStr p.period "month"),
            ("date_min", jsOrStr p.dateMin ""),
            ("date_max", jsOrStr p.dateMax ""),
            ("per_page", toString (jsOrNat p.perPage 10)),
            ("page", toString (jsOrNat p.page 1))]
    (p.filters.getD [])

/-- The filters-only query `{ ...params.filters }`. -/
def filtersQuery (p : Params) : List (String × String) :=
  jsSpread [] (p.filters.getD [])

/-- `metaData.findIndex(meta => meta.key === metaKey)`, as an optional
index (`none` stands for `-1`). -/
def findMetaIdx : List MetaEntry → String → Option Nat
  | [], _ => none
  | e :: rest, k => if e.key == k then some 0 else (findMetaIdx rest k).map (· + 1)

/-- `metaData[i].value = v`: replace the value at index `i`, leaving every
other entry and the entry's own key untouched. -/
def setMetaValueAt : List MetaEntry → Nat → JsonVal → List MetaEntry
  | [], _, _ => []
  | e :: rest, 0, v => { e with value := v } :: rest
  | e :: rest, i + 1, v => e :: setMetaValueAt rest i v

/-- The create/update meta mutation: replace the value of the first entry
whose key matches, or push `{ key, value }` at the end. -/
def upsertMeta (md : List MetaEntry) (k : String) (v : JsonVal) : List MetaEntry :=
  match findMetaIdx md k with
  | some i => setMetaValueAt md i v
  | none => md ++ [⟨k, v⟩]

/-- `metaData.filter(meta => meta.key !== metaKey)`. -/
def removeMeta (md : List MetaEntry) (k : String) : List MetaEntry :=
  md.filter (fun m => m.key != k)

/-- The shared `get_*_meta` read: GET the entity, take `meta_data || []`,
and return it filtered by key when a `metaKey` was supplied. -/
def metaRead (c : Client) (up : HttpRequest → UpstreamResult) (entityPath : String)
    (mk : Option String) : List HttpRequest × Except InternalErr DispatchValue :=
  let getReq := c.getReq entityPath []
  ([getReq],
    match toExcept (up getReq) with
    | .error e => .error e
    | .ok ent =>
      let md := ent.meta_data.getD []
      if truthyS mk then .ok (.metaList (md.filter (fun m => m.key == mk.getD "")))
      else .ok (.metaList md))

/-- The shared `create_*_meta`/`update_*_meta` read-modify-write: GET the
entity, upsert within its `meta_data`, PUT `{ meta_data }` back, and
return the PUT response's `meta_data` field. -/
def metaMutate (c : Client) (up : HttpRequest → UpstreamResult) (entityPath : String)
    (k : String) (v : JsonVal) : List HttpRequest × Except InternalErr DispatchValue :=
  let getReq := c.getReq entityPath []
  match toExcept (up getReq) with
  | .error e => ([getReq], .error e)
  | .ok ent =>
    let md := ent.meta_data.getD []
    let updated := upsertMeta md k v
    let putReq := c.putReq entityPath (some (.metaData updated))
    match toExcept (up putReq) with
    | .error e => ([getReq, putReq], .error e)
    | .ok ent2 => ([getReq, putReq], .ok (.metaField ent2.meta_data))

/-- The shared `delete_*_meta` read-modify-write: GET the entity, filter
the matching entries out of `meta_data`, PUT `{ meta_data }` back, and
return the PUT response's `meta_data` field. -/
def metaErase (c : Client) (up : HttpRequest → UpstreamResult) (entityPath : String)
    (k : String) : List HttpRequest × Except InternalErr DispatchValue :=
  let getReq := c.getReq entityPath []
  match toExcept (up getReq) with
  | .error e => ([getReq], .error e)
  | .ok ent =>
    let md := ent.meta_data.getD []
    let updated := removeMeta md k
    let putReq := c.putReq entityPath (some (.metaData updated))
    match toExcept (up putReq) with
    | .error e => ([getReq, putReq], .error e)
    | .ok ent2 => ([getReq, putReq], .ok (.metaField ent2.meta_data))

/-- The bare pagination query `{ per_page: params.perPage || 10, page:
params.page || 1 }` (no filters), used by `get_posts`. -/
def pageQuery (p : Params) : List (String × String) :=
  [("per_page", toString (jsOrNat p.perPage 10)),
   ("page", toString (jsOrNat p.page 1))]

/-- Switch cases of `handleWooCommerceRequest` in `index.ts`, final part:
the meta-data operations and the switch's own `default` branch. -/
def runSwitchD (c : Client) (up : HttpRequest → UpstreamResult) (method : String)
    (p : Params) : List HttpRequest × Except InternalErr DispatchValue :=
  if method = "get_post_meta" then
    if !truthyN p.postId then reqFail "Post ID is required"
    else
      let metaEndpoint :=
        if truthyS p.metaKey then "/posts/" ++ natP p.postId ++ "/meta/" ++ p.metaKey.getD ""
        else "/posts/" ++ natP p.postId ++ "/meta"
      call1 up (c.getReq metaEndpoint [])
  else if method = "create_post_meta" then
    if !truthyN p.postId then reqFail "Post ID is required"
    else if !truthyS p.metaKey then reqFail "Meta key is required"
    else if p.metaValue.isNone then reqFail "Meta value is required"
    else call1 up (c.postReq ("/posts/" ++ natP p.postId ++ "/meta")
      (.keyValue (p.metaKey.getD "") (p.metaValue.getD .null)))
  else if method = "update_post_meta" then
    if !truthyN p.postId then reqFail "Post ID is required"
    else if !truthyN p.metaId then reqFail "Meta ID is required"
    else if p.metaValue.isNone then reqFail "Meta value is required"
    else call1 up (c.putReq ("/posts/" ++ natP p.postId ++ "/meta/" ++ natP p.metaId)
      (some (.valueOnly (p.metaValue.getD .null))))
  else if method = "delete_post_meta" then
    if !truthyN p.postId then reqFail "Post ID is required"
    else if !truthyN p.metaId then reqFail "Meta ID is required"
    else call1 up (c.deleteReq ("/posts/" ++ natP p.postId ++ "/meta/" ++ natP p.metaId)
      [("force", boolStr (jsOrBool p.force true))])
  else if method = "get_product_meta" then
    if !truthyN p.productId then reqFail "Product ID is required"
    else metaRead c up ("/products/" ++ natP p.productId) p.metaKey
  else if method = "create_product_meta" ∨ method = "update_product_meta" then
    if !truthyN p.productId then reqFail "Product ID is required"
    else if !truthyS p.metaKey then reqFail "Meta key is required"
    else if p.metaValue.isNone then reqFail "Meta value is required"
    else metaMutate c up ("/products/" ++ natP p.productId) (p.metaKey.getD "")
      (p.metaValue.getD .null)
  else if method = "delete_product_meta" then
    if !truthyN p.productId then reqFail "Product ID is required"
    else if !truthyS p.metaKey then reqFail "Meta key is required"
    else metaErase c up ("/products/" ++ natP p.productId) (p.metaKey.getD "")
  else if method = "get_order_meta" then
    if !truthyN p.orderId then reqFail "Order ID is required"
    else metaRead c up ("/orders/" ++ natP p.orderId) p.metaKey
  else if method = "create_order_meta" ∨ method = "update_order_meta" then
    if !truthyN p.orderId then reqFail "Order ID is required"
    else if !truthyS p.metaKey then reqFail "Meta key is required"
    else if p.metaValue.isNone then reqFail "Meta value is required"
    else metaMutate c up ("/orders/" ++ natP p.orderId) (p.metaKey.getD "")
      (p.metaValue.getD .null)
  else if method = "delete_order_meta" then
    if !truthyN p.orderId then reqFail "Order ID is required"
    else if !truthyS p.metaKey then reqFail "Meta key is required"
    else metaErase c up ("/orders/" ++ natP p.orderId) (p.metaKey.getD "")
  else if method = "get_customer_meta" then
    if !truthyN p.customerId then reqFail "Customer ID is required"
    else metaRead c up ("/customers/" ++ natP p.customerId) p.metaKey
  else if method = "create_customer_meta" ∨ method = "update_customer_meta" then
    if !truthyN p.customerId then reqFail "Customer ID is required"
    else if !truthyS p.metaKey then reqFail "Meta key is required"
    else if p.metaValue.isNone then reqFail "Meta value is required"
    else metaMutate c up ("/customers/" ++ natP p.customerId) (p.metaKey.getD "")
      (p.metaValue.getD .null)
  else if method = "delete_customer_meta" then
    if !truthyN p.customerId then reqFail "Customer ID is required"
    else if !truthyS p.metaKey then reqFail "Meta key is required"
    else metaErase c up ("/customers/" ++ natP p.customerId) (p.metaKey.getD "")
  else reqFail ("Unknown method: " ++ method)

/-- Switch cases, third part: variations, attributes, attribute terms,
categories, tags, reviews, payment gateways, settings, system status and
data endpoints. Falls through to `runSwitchD`. -/
def runSwitchC (c : Client) (up : HttpRequest → UpstreamResult) (method : String)
    (p : Params) : List HttpRequest × Except InternalErr DispatchValue :=
  if method = "get_product_variations" then
    if !truthyN p.productId then reqFail "Product ID is required"
    else call1 up (c.getReq ("/products/" ++ natP p.productId ++ "/variations") (listQuery p))
  else if method = "get_product_variation" then
    if !truthyN p.productId then reqFail "Product ID is required"
    else if !truthyN p.variationId then reqFail "Variation ID is required"
    else call1 up (c.getReq
      ("/products/" ++ natP p.productId ++ "/variations/" ++ natP p.variationId) [])
  else if method = "create_product_variation" then
    if !truthyN p.productId then reqFail "Product ID is required"
    else if !truthyV p.variationData then reqFail "Variation data is required"
    else call1 up (c.postReq ("/products/" ++ natP p.productId ++ "/variations")
      (.raw (p.variationData.getD .null)))
  else if method = "update_product_variation" then
    if !truthyN p.productId then reqFail "Product ID is required"
    else if !truthyN p.variationId then reqFail "Variation ID is required"
    else if !truthyV p.variationData then reqFail "Variation data is required"
    else call1 up (c.putReq
      ("/products/" ++ natP p.productId ++ "/variations/" ++ natP p.variationId)
      (some (.raw (p.variationData.getD .null))))
  else if method = "delete_product_variation" then
    if !truthyN p.productId then reqFail "Product ID is required"
    else if !truthyN p.variationId then reqFail "Variation ID is required"
    else call1 up (c.deleteReq
      ("/products/" ++ natP p.productId ++ "/variations/" ++ natP p.variationId)
      [("force", boolStr (jsOrBool p.force true))])
  else if method = "get_product_attributes" then
    call1 up (c.getReq "/products/attributes" (listQuery p))
  else if method = "get_product_attribute" then
    if !truthyN p.attributeId then reqFail "Attribute ID is required"
    else call1 up (c.getReq ("/products/attributes/" ++ natP p.attributeId) [])
  else if method = "create_product_attribute" then
    if !truthyV p.attributeData then reqFail "Attribute data is required"
    else call1 up (c.postReq "/products/attributes" (.raw (p.attributeData.getD .null)))
  else if method = "update_product_attribute" then
    if !truthyN p.attributeId then reqFail "Attribute ID is required"
    else if !truthyV p.attributeData then reqFail "Attribute data is required"
    else call1 up (c.putReq ("/products/attributes/" ++ natP p.attributeId)
      (some (.raw (p.attributeData.getD .null))))
  else if method = "delete_product_attribute" then
    if !truthyN p.attributeId then reqFail "Attribute ID is required"
    else call1 up (c.deleteReq ("/products/attributes/" ++ natP p.attributeId)
      [("force", boolStr (jsOrBool p.force true))])
  else if method = "get_attribute_terms" then
    if !truthyN p.attributeId then reqFail "Attribute ID is required"
    else call1 up (c.getReq ("/products/attributes/" ++ natP p.attributeId ++ "/terms")
      (listQuery p))
  else if method = "get_attribute_term" then
    if !truthyN p.attributeId then reqFail "Attribute ID is required"
    else if !truthyN p.termId then reqFail "Term ID is required"
    else call1 up (c.getReq
      ("/products/attributes/" ++ natP p.attributeId ++ "/terms/" ++ natP p.termId) [])
  else if method = "create_attribute_term" then
    if !truthyN p.attributeId then reqFail "Attribute ID is required"
    else if !truthyV p.termData then reqFail "Term data is required"
    else call1 up (c.postReq ("/products/attributes/" ++ natP p.attributeId ++ "/terms")
      (.raw (p.termData.getD .null)))
  else if method = "update_attribute_term" then
    if !truthyN p.attributeId then reqFail "Attribute ID is required"
    else if !truthyN p.termId then reqFail "Term ID is required"
    else if !truthyV p.termData then reqFail "Term data is required"
    else call1 up (c.putReq
      ("/products/attributes/" ++ natP p.attributeId ++ "/terms/" ++ natP p.termId)
      (some (.raw (p.termData.getD .null))))
  else if method = "delete_attribute_term" then
    if !truthyN p.attributeId then reqFail "Attribute ID is required"
    else if !truthyN p.termId then reqFail "Term ID is required"
    else call1 up (c.deleteReq
      ("/products/attributes/" ++ natP p.attributeId ++ "/terms/" ++ natP p.termId)
      [("force", boolStr (jsOrBool p.force true))])
  else if method = "get_product_categories" then
    call1 up (c.getReq "/products/categories" (listQuery p))
  else if method = "get_product_category" then
    if !truthyN p.categoryId then reqFail "Category ID is required"
    else call1 up (c.getReq ("/products/categories/" ++ natP p.categoryId) [])
  else if method = "create_product_category" then
    if !truthyV p.categoryData then reqFail "Category data is required"
    else call1 up (c.postReq "/products/categories" (.raw (p.categoryData.getD .null)))
  else if method = "update_product_category" then
    if !truthyN p.categoryId then reqFail "Category ID is required"
    else if !truthyV p.categoryData then reqFail "Category data is required"
    else call1 up (c.putReq ("/products/categories/" ++ natP p.categoryId)
      (some (.raw (p.categoryData.getD .null))))
  else if method = "delete_product_category" then
    if !truthyN p.categoryId then reqFail "Category ID is required"
    else call1 up (c.deleteReq ("/products/categories/" ++ natP p.categoryId)
      [("force", boolStr (jsOrBool p.force true))])
  else if method = "get_product_tags" then
    call1 up (c.getReq "/products/tags" (listQuery p))
  else if method = "get_product_tag" then
    if !truthyN p.tagId then reqFail "Tag ID is required"
    else call1 up (c.getReq ("/products/tags/" ++ natP p.tagId) [])
  else if method = "create_product_tag" then
    if !truthyV p.tagData then reqFail "Tag data is required"
    else call1 up (c.postReq "/products/tags" (.raw (p.tagData.getD .null)))
  else if method = "update_product_tag" then
    if !truthyN p.tagId then reqFail "Tag ID is required"
    else if !truthyV p.tagData then reqFail "Tag data is required"
    else call1 up (c.putReq ("/products/tags/" ++ natP p.tagId)
      (some (.raw (p.tagData.getD .null))))
  else if method = "delete_product_tag" then
    if !truthyN p.tagId then reqFail "Tag ID is required"
    else call1 up (c.deleteReq ("/products/tags/" ++ natP p.tagId)
      [("force", boolStr (jsOrBool p.force true))])
  else if method = "get_product_reviews" then
    call1 up (c.getReq
      (if truthyN p.productId then "/products/" ++ natP p.productId ++ "/reviews"
       else "/products/reviews")
      (listQuery p))
  else if method = "get_product_review" then
    if !truthyN p.reviewId then reqFail "Review ID is required"
    else call1 up (c.getReq
      (if truthyN p.productId then
        "/products/" ++ natP p.productId ++ "/reviews/" ++ natP p.reviewId
       else "/products/reviews/" ++ natP p.reviewId) [])
  else if method = "create_product_review" then
    if !truthyN p.productId then reqFail "Product ID is required"
    else if !truthyV p.reviewData then reqFail "Review data is required"
    else call1 up (c.postReq ("/products/" ++ natP p.productId ++ "/reviews")
      (.raw (p.reviewData.getD .null)))
  else if method = "update_product_review" then
    if !truthyN p.reviewId then reqFail "Review ID is required"
    else if !truthyV p.reviewData then reqFail "Review data is required"
    else call1 up (c.putReq
      (if truthyN p.productId then
        "/products/" ++ natP p.productId ++ "/reviews/" ++ natP p.reviewId
       else "/products/reviews/" ++ natP p.reviewId)
      (some (.raw (p.reviewData.getD .null))))
  else if method = "delete_product_review" then
    if !truthyN p.reviewId then reqFail "Review ID is required"
    else call1 up (c.deleteReq
      (if truthyN p.productId then
        "/products/" ++ natP p.productId ++ "/reviews/" ++ natP p.reviewId
       else "/products/reviews/" ++ natP p.reviewId)
      [("force", boolStr (jsOrBool p.force true))])
  else if method = "get_payment_gateways" then
    call1 up (c.getReq "/payment_gateways" [])
  else if method = "get_payment_gateway" then
    if !truthyN p.gatewayId then reqFail "Gateway ID is required"
    else call1 up (c.getReq ("/payment_gateways/" ++ natP p.gatewayId) [])
  else if method = "update_payment_gateway" then
    if !truthyN p.gatewayId then reqFail "Gateway ID is required"
    else if !truthyV p.gatewayData then reqFail "Gateway data is required"
    else call1 up (c.putReq ("/payment_gateways/" ++ natP p.gatewayId)
      (some (.raw (p.gatewayData.getD .null))))
  else if method = "get_settings" then
    call1 up (c.getReq "/settings" [])
  else if method = "get_setting_options" then
    if !truthyS p.group then reqFail "Settings group is required"
    else call1 up (c.getReq ("/settings/" ++ p.group.getD "") [])
  else if method = "update_setting_option" then
    if !truthyS p.group then reqFail "Settings group is required"
    else if !truthyS p.settingId then reqFail "Setting ID is required"
    else if !truthyV p.settingData then reqFail "Setting data is required"
    else call1 up (c.putReq ("/settings/" ++ p.group.getD "" ++ "/" ++ p.settingId.getD "")
      (some (.raw (p.settingData.getD .null))))
  else if method = "get_system_status" then
    call1 up (c.getReq "/system_status" [])
  else if method = "get_system_status_tools" then
    call1 up (c.getReq "/system_status/tools" [])
  else if method = "run_system_status_tool" then
    if !truthyN p.toolId then reqFail "Tool ID is required"
    else call1 up (c.putReq ("/system_status/tools/" ++ natP p.toolId) none)
  else if method = "get_data" then
    call1 up (c.getReq "/data" [])
  else if method = "get_continents" then
    call1 up (c.getReq "/data/continents" [])
  else if method = "get_countries" then
    call1 up (c.getReq "/data/countries" [])
  else if method = "get_currencies" then
    call1 up (c.getReq "/data/currencies" [])
  else if method = "get_current_currency" then
    call1 up (c.getReq "/data/currencies/current" [])
  else runSwitchD c up method p

/-- Switch cases, second part: shipping zones and methods, tax classes and
rates, coupons, order notes and refunds. Falls through to `runSwitchC`. -/
def runSwitchB (c : Client) (up : HttpRequest → UpstreamResult) (method : String)
    (p : Params) : List HttpRequest × Except InternalErr DispatchValue :=
  if method = "get_shipping_zones" then
    call1 up (c.getReq "/shipping/zones" (filtersQuery p))
  else if method = "get_shipping_zone" then
    if !truthyN p.zoneId then reqFail "Zone ID is required"
    else call1 up (c.getReq ("/shipping/zones/" ++ natP p.zoneId) [])
  else if method = "create_shipping_zone" then
    if !truthyV p.zoneData then reqFail "Zone data is required for creating a shipping zone"
    else call1 up (c.postReq "/shipping/zones" (.raw (p.zoneData.getD .null)))
  else if method = "update_shipping_zone" then
    if !truthyN p.zoneId then reqFail "Zone ID is required for updating a shipping zone"
    else if !truthyV p.zoneData then reqFail "Zone data is required for updating a shipping zone"
    else call1 up (c.putReq ("/shipping/zones/" ++ natP p.zoneId)
      (some (.raw (p.zoneData.getD .null))))
  else if method = "delete_shipping_zone" then
    if !truthyN p.zoneId then reqFail "Zone ID is required for deleting a shipping zone"
    else call1 up (c.deleteReq ("/shipping/zones/" ++ natP p.zoneId)
      [("force", boolStr (jsOrBool p.force true))])
  else if method = "get_shipping_methods" then
    call1 up (c.getReq "/shipping_methods" [])
  else if method = "get_shipping_zone_methods" then
    if !truthyN p.zoneId then reqFail "Zone ID is required"
    else call1 up (c.getReq ("/shipping/zones/" ++ natP p.zoneId ++ "/methods") [])
  else if method = "create_shipping_zone_method" then
    if !truthyN p.zoneId then reqFail "Zone ID is required"
    else if !truthyV p.methodData then
      reqFail "Method data is required for creating a shipping method"
    else call1 up (c.postReq ("/shipping/zones/" ++ natP p.zoneId ++ "/methods")
      (.raw (p.methodData.getD .null)))
  else if method = "update_shipping_zone_method" then
    if !truthyN p.zoneId then reqFail "Zone ID is required"
    else if !truthyN p.instanceId then reqFail "Method instance ID is required"
    else if !truthyV p.methodData then
      reqFail "Method data is required for updating a shipping method"
    else call1 up (c.putReq
      ("/shipping/zones/" ++ natP p.zoneId ++ "/methods/" ++ natP p.instanceId)
      (some (.raw (p.methodData.getD .null))))
  else if method = "delete_shipping_zone_method" then
    if !truthyN p.zoneId then reqFail "Zone ID is required"
    else if !truthyN p.instanceId then reqFail "Method instance ID is required"
    else call1 up (c.deleteReq
      ("/shipping/zones/" ++ natP p.zoneId ++ "/methods/" ++ natP p.instanceId)
      [("force", boolStr (jsOrBool p.force true))])
  else if method = "get_shipping_zone_locations" then
    if !truthyN p.zoneId then reqFail "Zone ID is required"
    else call1 up (c.getReq ("/shipping/zones/" ++ natP p.zoneId ++ "/locations") [])
  else if method = "update_shipping_zone_locations" then
    if !truthyN p.zoneId then reqFail "Zone ID is required"
    else if !truthyV p.locations then reqFail "Locations data is required"
    else call1 up (c.putReq ("/shipping/zones/" ++ natP p.zoneId ++ "/locations")
      (some (.raw (p.locations.getD .null))))
  else if method = "get_tax_classes" then
    call1 up (c.getReq "/taxes/classes" [])
  else if method = "create_tax_class" then
    if !truthyV p.taxClassData then reqFail "Tax class data is required"
    else call1 up (c.postReq "/taxes/classes" (.raw (p.taxClassData.getD .null)))
  else if method = "delete_tax_class" then
    if !truthyS p.slug then reqFail "Tax class slug is required"
    else call1 up (c.deleteReq ("/taxes/classes/" ++ p.slug.getD "")
      [("force", boolStr (jsOrBool p.force true))])
  else if method = "get_tax_rates" then
    call1 up (c.getReq "/taxes" (listQuery p))
  else if method = "get_tax_rate" then
    if !truthyN p.rateId then reqFail "Tax rate ID is required"
    else call1 up (c.getReq ("/taxes/" ++ natP p.rateId) [])
  else if method = "create_tax_rate" then
    if !truthyV p.taxRateData then reqFail "Tax rate data is required"
    else call1 up (c.postReq "/taxes" (.raw (p.taxRateData.getD .null)))
  else if method = "update_tax_rate" then
    if !truthyN p.rateId then reqFail "Tax rate ID is required"
    else if !truthyV p.taxRateData then reqFail "Tax rate data is required"
    else call1 up (c.putReq ("/taxes/" ++ natP p.rateId)
      (some (.raw (p.taxRateData.getD .null))))
  else if method = "delete_tax_rate" then
    if !truthyN p.rateId then reqFail "Tax rate ID is required"
    else call1 up (c.deleteReq ("/taxes/" ++ natP p.rateId)
      [("force", boolStr (jsOrBool p.force true))])
  else if method = "get_coupons" then
    call1 up (c.getReq "/coupons" (listQuery p))
  else if method = "get_coupon" then
    if !truthyN p.couponId then reqFail "Coupon ID is required"
    else call1 up (c.getReq ("/coupons/" ++ natP p.couponId) [])
  else if method = "create_coupon" then
    if !truthyV p.couponData then reqFail "Coupon data is required"
    else call1 up (c.postReq "/coupons" (.raw (p.couponData.getD .null)))
  else if method = "update_coupon" then
    if !truthyN p.couponId then reqFail "Coupon ID is required"
    else if !truthyV p.couponData then reqFail "Coupon data is required"
    else call1 up (c.putReq ("/coupons/" ++ natP p.couponId)
      (some (.raw (p.couponData.getD .null))))
  else if method = "delete_coupon" then
    if !truthyN p.couponId then reqFail "Coupon ID is required"
    else call1 up (c.deleteReq ("/coupons/" ++ natP p.couponId)
      [("force", boolStr (jsOrBool p.force true))])
  else if method = "get_order_notes" then
    if !truthyN p.orderId then reqFail "Order ID is required"
    else call1 up (c.getReq ("/orders/" ++ natP p.orderId ++ "/notes") (listQuery p))
  else if method = "get_order_note" then
    if !truthyN p.orderId then reqFail "Order ID is required"
    else if !truthyN p.noteId then reqFail "Note ID is required"
    else call1 up (c.getReq ("/orders/" ++ natP p.orderId ++ "/notes/" ++ natP p.noteId) [])
  else if method = "create_order_note" then
    if !truthyN p.orderId then reqFail "Order ID is required"
    else if !truthyV p.noteData then reqFail "Note data is required"
    else call1 up (c.postReq ("/orders/" ++ natP p.orderId ++ "/notes")
      (.raw (p.noteData.getD .null)))
  else if method = "delete_order_note" then
    if !truthyN p.orderId then reqFail "Order ID is required"
    else if !truthyN p.noteId then reqFail "Note ID is required"
    else call1 up (c.deleteReq ("/orders/" ++ natP p.orderId ++ "/notes/" ++ natP p.noteId)
      [("force", boolStr (jsOrBool p.force true))])
  else if method = "get_order_refunds" then
    if !truthyN p.orderId then reqFail "Order ID is required"
    else call1 up (c.getReq ("/orders/" ++ natP p.orderId ++ "/refunds") (listQuery p))
  else if method = "get_order_refund" then
    if !truthyN p.orderId then reqFail "Order ID is required"
    else if !truthyN p.refundId then reqFail "Refund ID is required"
    else call1 up (c.getReq ("/orders/" ++ natP p.orderId ++ "/refunds/" ++ natP p.refundId) [])
  else if method = "create_order_refund" then
    if !truthyN p.orderId then reqFail "Order ID is required"
    else if !truthyV p.refundData then reqFail "Refund data is required"
    else call1 up (c.postReq ("/orders/" ++ natP p.orderId ++ "/refunds")
      (.raw (p.refundData.getD .null)))
  else if method = "delete_order_refund" then
    if !truthyN p.orderId then reqFail "Order ID is required"
    else if !truthyN p.refundId then reqFail "Refund ID is required"
    else call1 up (c.deleteReq ("/orders/" ++ natP p.orderId ++ "/refunds/" ++ natP p.refundId)
      [("force", boolStr (jsOrBool p.force true))])
  else runSwitchC c up method p

/-- Switch cases, first part: posts, products, orders, customers and
reports. Falls through to `runSwitchB`. -/
def runSwitchA (c : Client) (up : HttpRequest → UpstreamResult) (method : String)
    (p : Params) : List HttpRequest × Except InternalErr DispatchValue :=
  if method = "create_post" then
    if !truthyS p.title ∨ !truthyS p.content then
      reqFail "Title and content are required for creating a post"
    else call1 up (c.postReq "/posts"
      (.createPost (p.title.getD "") (p.content.getD "") (jsOrStr p.status "draft")))
  else if method = "get_posts" then
    call1 up (c.getReq "/posts" (pageQuery p))
  else if method = "update_post" then
    if !truthyN p.postId then reqFail "Post ID is required for updating a post"
    else call1 up (c.postReq ("/posts/" ++ natP p.postId)
      (.updatePost (if truthyS p.title then p.title else none)
        (if truthyS p.content then p.content else none)
        (if truthyS p.status then p.status else none)))
  else if method = "get_products" then
    call1 up (c.getReq "/products" (listQuery p))
  else if method = "get_product" then
    if !truthyN p.productId then reqFail "Product ID is required"
    else call1 up (c.getReq ("/products/" ++ natP p.productId) [])
  else if method = "create_product" then
    if !truthyV p.productData then reqFail "Product data is required for creating a product"
    else call1 up (c.postReq "/products" (.raw (p.productData.getD .null)))
  else if method = "update_product" then
    if !truthyN p.productId then reqFail "Product ID is required for updating a product"
    else if !truthyV p.productData then
      reqFail "Product data is required for updating a product"
    else call1 up (c.putReq ("/products/" ++ natP p.productId)
      (some (.raw (p.productData.getD .null))))
  else if method = "delete_product" then
    if !truthyN p.productId then reqFail "Product ID is required for deleting a product"
    else call1 up (c.deleteReq ("/products/" ++ natP p.productId)
      [("force", boolStr (jsOrBool p.force false))])
  else if method = "get_orders" then
    call1 up (c.getReq "/orders" (listQuery p))
  else if method = "get_order" then
    if !truthyN p.orderId then reqFail "Order ID is required"
    else call1 up (c.getReq ("/orders/" ++ natP p.orderId) [])
  else if method = "create_order" then
    if !truthyV p.orderData then reqFail "Order data is required for creating an order"
    else call1 up (c.postReq "/orders" (.raw (p.orderData.getD .null)))
  else if method = "update_order" then
    if !truthyN p.orderId then reqFail "Order ID is required for updating an order"
    else if !truthyV p.orderData then reqFail "Order data is required for updating an order"
    else call1 up (c.putReq ("/orders/" ++ natP p.orderId)
      (some (.raw (p.orderData.getD .null))))
  else if method = "delete_order" then
    if !truthyN p.orderId then reqFail "Order ID is required for deleting an order"
    else call1 up (c.deleteReq ("/orders/" ++ natP p.orderId)
      [("force", boolStr (jsOrBool p.force false))])
  else if method = "get_customers" then
    call1 up (c.getReq "/customers" (listQuery p))
  else if method = "get_customer" then
    if !truthyN p.customerId then reqFail "Customer ID is required"
    else call1 up (c.getReq ("/customers/" ++ natP p.customerId) [])
  else if method = "create_customer" then
    if !truthyV p.customerData then reqFail "Customer data is required for creating a customer"
    else call1 up (c.postReq "/customers" (.raw (p.customerData.getD .null)))
  else if method = "update_customer" then
    if !truthyN p.customerId then reqFail "Customer ID is required for updating a customer"
    else if !truthyV p.customerData then
      reqFail "Customer data is required for updating a customer"
    else call1 up (c.putReq ("/customers/" ++ natP p.customerId)
      (some (.raw (p.customerData.getD .null))))
  else if method = "delete_customer" then
    if !truthyN p.customerId then reqFail "Customer ID is required for deleting a customer"
    else call1 up (c.deleteReq ("/customers/" ++ natP p.customerId)
      [("force", boolStr (jsOrBool p.force false))])
  else if method = "get_sales_report" then
    call1 up (c.getReq "/reports/sales" (periodQuery p))
  else if method = "get_products_report" then
    call1 up (c.getReq "/reports/products" (periodListQuery p))
  else if method = "get_orders_report" then
    call1 up (c.getReq "/reports/orders" (periodListQuery p))
  else if method = "get_categories_report" then
    call1 up (c.getReq "/reports/categories" (listQuery p))
  else if method = "get_customers_report" then
    call1 up (c.getReq "/reports/customers" (listQuery p))
  else if method = "get_stock_report" then
    call1 up (c.getReq "/reports/stock" (listQuery p))
  else if method = "get_coupons_report" then
    call1 up (c.getReq "/reports/coupons" (periodListQuery p))
  else if method = "get_taxes_report" then
    call1 up (c.getReq "/reports/taxes" (periodListQuery p))
  else runSwitchB c up method p

/-- The whole switch of `handleWooCommerceRequest` in `index.ts`. -/
def runSwitch (c : Client) (up : HttpRequest → UpstreamResult) (method : String)
    (p : Params) : List HttpRequest × Except InternalErr DispatchValue :=
  runSwitchA c up method p

/-- `handleWooCommerceRequest` of `index.ts`: resolve credentials, require
a site URL, pick the API family (WordPress first, then WooCommerce),
require that family's credentials, build the family's client, run the
method's switch case, and normalise errors in the catch block. Returns the
ordered list of upstream requests issued together with the outcome. -/
def handleWooCommerceRequest (cfg : Config) (up : HttpRequest → UpstreamResult)
    (method : String) (p : Params) : List HttpRequest × DispatchResult :=
  let creds := resolveCredentials p cfg
  if creds.siteUrl = "" then ([], .error siteUrlMsg)
  else if wpMethods.contains method then
    if creds.username = "" ∨ creds.password = "" then ([], .error wpCredsMsg)
    else finishDispatch (runSwitch (wpClient creds) up method p)
  else if wooMethods.contains method then
    if creds.consumerKey = "" ∨ creds.consumerSecret = "" then ([], .error wooCredsMsg)
    else finishDispatch (runSwitch (wooClient creds) up method p)
  else ([], .error ("Unknown method: " ++ method))

/-- The single client of `sse-server.ts`: base `{siteUrl}/wp-json/wc/v3`
with the axios `auth` option, i.e. an `Authorization: Basic` header built
from `consumerKey:consumerSecret` — not query-string credentials. -/
def sseClient (creds : Credentials) : Client :=
  { baseURL := creds.siteUrl ++ "/wp-json/wc/v3"
    authQuery := []
    authHeader := some ("Basic " ++ base64 (creds.consumerKey ++ ":" ++ creds.consumerSecret)) }

/-- The `URLSearchParams` built by the sse-server list handlers: `per_page`
and `page` only when the caller supplied truthy values (no defaults), then
the filter entries. -/
def sseListQuery (p : Params) : List (String × String) :=
  (if truthyN p.perPage then [("per_page", toString (p.perPage.getD 0))] else []) ++
  (if truthyN p.page then [("page", toString (p.page.getD 0))] else []) ++
  p.filters.getD []

/-- The `URLSearchParams` of the sse-server `get_customers` handler:
pagination only, no filters. -/
def ssePageQuery (p : Params) : List (String × String) :=
  (if truthyN p.perPage then [("per_page", toString (p.perPage.getD 0))] else []) ++
  (if truthyN p.page then [("page", toString (p.page.getD 0))] else [])

/-- The switch of `handleWooCommerceRequest` in `sse-server.ts` (the SSE
broadcasts on mutations are outside the dispatch contract and elided). -/
def sseRunSwitch (c : Client) (up : HttpRequest → UpstreamResult) (method : String)
    (p : Params) : List HttpRequest × Except InternalErr DispatchValue :=
  if method = "get_products" then
    call1 up (c.getReq "/products" (sseListQuery p))
  else if method = "get_product" then
    if !truthyN p.productId then reqFail "Product ID is required"
    else call1 up (c.getReq ("/products/" ++ natP p.productId) [])
  else if method = "create_product" then
    if !truthyV p.productData then reqFail "Product data is required"
    else call1 up (c.postReq "/products" (.raw (p.productData.getD .null)))
  else if method = "update_product" then
    if !truthyN p.productId then reqFail "Product ID is required"
    else if !truthyV p.productData then reqFail "Product data is required"
    else call1 up (c.putReq ("/products/" ++ natP p.productId)
      (some (.raw (p.productData.getD .null))))
  else if method = "get_orders" then
    call1 up (c.getReq "/orders" (sseListQuery p))
  else if method = "get_order" then
    if !truthyN p.orderId then reqFail "Order ID is required"
    else call1 up (c.getReq ("/orders/" ++ natP p.orderId) [])
  else if method = "create_order" then
    if !truthyV p.orderData then reqFail "Order data is required"
    else call1 up (c.postReq "/orders" (.raw (p.orderData.getD .null)))
  else if method = "update_order" then
    if !truthyN p.orderId then reqFail "Order ID is required"
    else if !truthyV p.orderData then reqFail "Order data is required"
    else call1 up (c.putReq ("/orders/" ++ natP p.orderId)
      (some (.raw (p.orderData.getD .null))))
  else if method = "get_customers" then
    call1 up (c.getReq "/customers" (ssePageQuery p))
  else if method = "get_system_status" then
    call1 up (c.getReq "/system_status" [])
  else reqFail ("Unknown method: " ++ method)

/-- `handleWooCommerceRequest` of `sse-server.ts`: resolve credentials,
require a site URL, build the Basic-auth WooCommerce client with **no**
check that a consumer key or secret is present, run the switch, and
normalise errors exactly as in `index.ts`. -/
def sseHandleWooCommerceRequest (cfg : Config) (up : HttpRequest → UpstreamResult)
    (method : String) (p : Params) : List HttpRequest × DispatchResult :=
  let creds := resolveCredentials p cfg
  if creds.siteUrl = "" then ([], .error siteUrlMsg)
  else finishDispatch (sseRunSwitch (sseClient creds) up method p)

/-- A JSON-RPC request id: string, number or null. -/
inductive RpcId where
  | num (n : Int)
  | str (s : String)
  | null
deriving DecidableEq, Repr

/-- A decoded inbound JSON-RPC request. -/
structure RpcRequest where
  jsonrpc : String
  id : RpcId
  method : String
  params : Params

/-- The result payload of a successful JSON-RPC response: the static
`initialize` metadata, the static `tools/list` table, or a dispatched
upstream result. -/
inductive McpResult where
  | initializeResult
  | toolsListResult
  | dispatched (v : DispatchValue)
deriving DecidableEq, Repr

/-- An outbound JSON-RPC response: `{jsonrpc:"2.0", id, result}` or
`{jsonrpc:"2.0", id, error:{code, message}}`. -/
inductive RpcResponse where
  | success (id : RpcId) (result : McpResult)
  | failure (id : RpcId) (code : Int) (message : String)
deriving DecidableEq, Repr

/-- The `app.post('/message')` handler of `index.ts`, given the decoded
body: a non-`"2.0"` `jsonrpc` field is reported as parse error `-32700`
with `id: null`; `initialize` and `tools/list` are answered statically;
anything else is dispatched, a dispatch failure becoming error `-32000`
with the failure's message and the echoed request id. -/
def postMessage (cfg : Config) (up : HttpRequest → UpstreamResult)
    (req : RpcRequest) : RpcResponse :=
  if req.jsonrpc ≠ "2.0" then .failure .null (-32700) "Parse error"
  else if req.method = "initialize" then .success req.id .initializeResult
  else if req.method = "tools/list" then .success req.id .toolsListResult
  else match (handleWooCommerceRequest cfg up req.method req.params).2 with
    | .ok v => .success req.id (.dispatched v)
    | .error m => .failure req.id (-32000) m

/-- Outcome of `JSON.parse` on one stdio line: a parse failure or a decoded
request. -/
inductive LineInput where
  | parseFail
  | parsed (req : RpcRequest)

/-- The stdio line handler of `startMcpServer` in `sse-server.ts`: a JSON
parse failure or a non-`"2.0"` `jsonrpc` field is reported as `-32700`
with `id: null`; otherwise the request is dispatched, a failure becoming
`-32000` with the failure's message and the echoed id. -/
def mcpLineResponse (cfg : Config) (up : HttpRequest → UpstreamResult)
    (line : LineInput) : RpcResponse :=
  match line with
  | .parseFail => .failure .null (-32700) "Parse error"
  | .parsed req =>
    if req.jsonrpc ≠ "2.0" then .failure .null (-32700) "Parse error"
    else match (sseHandleWooCommerceRequest cfg up req.method req.params).2 with
      | .ok v => .success req.id (.dispatched v)
      | .error m => .failure req.id (-32000) m

/-- An inbound HTTP POST body for `/message` as it leaves the
`express.json()` body-parsing stage: either the raw payload failed JSON
parsing, or it was decoded into a request object. -/
inductive HttpBody where
  | malformed
  | decoded (req : RpcRequest)

/-- What the HTTP transport sends back: either the `express.json()`
middleware's own 400 Bad Request error (emitted when the body fails JSON
parsing, before `app.post('/message')` runs — not a JSON-RPC envelope),
or a JSON-RPC response produced by the handler. -/
inductive HttpAnswer where
  | expressBadRequest
  | rpc (r : RpcResponse)
deriving DecidableEq, Repr

/-- The `/message` endpoint of `index.ts` including its body-parsing
stage: `app.use(express.json(...))` decodes the payload, answering a
malformed body with the middleware's default 400 error so that the
handler — and its `-32700` catch, which `request = req.body` can never
trigger — only ever sees decoded bodies. -/
def messageEndpoint (cfg : Config) (up : HttpRequest → UpstreamResult)
    (body : HttpBody) : HttpAnswer :=
  match body with
  | .malformed => .expressBadRequest
  | .decoded req => .rpc (postMessage cfg up req)

/-- An upstream oracle that answers every request with an empty body. -/
def upOkEmpty : HttpRequest → UpstreamResult := fun _ => .ok Entity.empty

/-- A `findIndex` by key over entries none of which carries the key
returns `-1` (`none`). -/
theorem findMetaIdx_eq_none (md : List MetaEntry) (k : String)
    (h : md.all (fun m => m.key != k) = true) : findMetaIdx md k = none := by
  induction md with
  | nil => rfl
  | cons e rest ih =>
    simp only [List.all_cons, Bool.and_eq_true] at h
    simp [findMetaIdx, ih h.2, bne_iff_ne.mp h.1]

/-- Every request of a handler outcome was built from the given client. -/
def ReqsFrom (c : Client) (x : List HttpRequest × Except InternalErr DispatchValue) : Prop :=
  ∀ req ∈ x.1, req.baseURL = c.baseURL ∧ req.authQuery = c.authQuery ∧
    req.authHeader = c.authHeader

/-- A validation failure issues no request. -/
theorem reqsFrom_reqFail (c : Client) (m : String) : ReqsFrom c (reqFail m) := by
  intro req h
  simp [reqFail] at h

/-- A single GET issues one request built from the client. -/
theorem reqsFrom_call1_get (c : Client) (up : HttpRequest → UpstreamResult)
    (path : String) (q : List (String × String)) :
    ReqsFrom c (call1 up (c.getReq path q)) := by
  intro req h
  simp [call1] at h
  subst h
  exact ⟨rfl, rfl, rfl⟩

/-- A single POST issues one request built from the client. -/
theorem reqsFrom_call1_post (c : Client) (up : HttpRequest → UpstreamResult)
    (path : String) (b : ReqBody) :
    ReqsFrom c (call1 up (c.postReq path b)) := by
  intro req h
  simp [call1] at h
  subst h
  exact ⟨rfl, rfl, rfl⟩

/-- A single PUT issues one request built from the client. -/
theorem reqsFrom_call1_put (c : Client) (up : HttpRequest → UpstreamResult)
    (path : String) (b : Option ReqBody) :
    ReqsFrom c (call1 up (c.putReq path b)) := by
  intro req h
  simp [call1] at h
  subst h
  exact ⟨rfl, rfl, rfl⟩

/-- A single DELETE issues one request built from the client. -/
theorem reqsFrom_call1_delete (c : Client) (up : HttpRequest → UpstreamResult)
    (path : String) (q : List (String × String)) :
    ReqsFrom c (call1 up (c.deleteReq path q)) := by
  intro req h
  simp [call1] at h
  subst h
  exact ⟨rfl, rfl, rfl⟩

/-- A meta read issues one request built from the client. -/
theorem reqsFrom_metaRead (c : Client) (up : HttpRequest → UpstreamResult)
    (path : String) (mk : Option String) : ReqsFrom c (metaRead c up path mk) := by
  intro req h
  simp [metaRead] at h
  subst h
  exact ⟨rfl, rfl, rfl⟩

/-- A meta create/update issues one or two requests, all built from the
client. -/
theorem reqsFrom_metaMutate (c : Client) (up : HttpRequest → UpstreamResult)
    (path : String) (k : String) (v : JsonVal) : ReqsFrom c (metaMutate c up path k v) := by
  intro req h
  simp only [metaMutate] at h
  split at h
  · simp at h
    subst h
    exact ⟨rfl, rfl, rfl⟩
  · split at h
    · simp at h
      rcases h with h | h <;> (subst h; exact ⟨rfl, rfl, rfl⟩)
    · simp at h
      rcases h with h | h <;> (subst h; exact ⟨rfl, rfl, rfl⟩)

/-- A meta delete issues one or two requests, all built from the client. -/
theorem reqsFrom_metaErase (c : Client) (up : HttpRequest → UpstreamResult)
    (path : String) (k : String) : ReqsFrom c (metaErase c up path k) := by
  intro req h
  simp only [metaErase] at h
  split at h
  · simp at h
    subst h
    exact ⟨rfl, rfl, rfl⟩
  · split at h
    · simp at h
      rcases h with h | h <;> (subst h; exact ⟨rfl, rfl, rfl⟩)
    · simp at h
      rcases h with h | h <;> (subst h; exact ⟨rfl, rfl, rfl⟩)

/-- An `if` preserves the client-provenance invariant of its branches. -/
theorem reqsFrom_ite (cl : Client) (cond : Prop) [Decidable cond]
    (a b : List HttpRequest × Except InternalErr DispatchValue)
    (ha : ReqsFrom cl a) (hb : ReqsFrom cl b) : ReqsFrom cl (if cond then a else b) := by
  by_cases h : cond
  · simpa [h] using ha
  · simpa [h] using hb

/-- Every request issued by the meta-data switch cases is built from the
selected client. -/
theorem reqsFrom_runSwitchD (c : Client) (up : HttpRequest → UpstreamResult)
    (method : String) (p : Params) : ReqsFrom c (runSwitchD c up method p) := by
  unfold runSwitchD
  repeat'
    first
      | apply reqsFrom_ite
      | exact reqsFrom_reqFail c _
      | exact reqsFrom_call1_get c up _ _
      | exact reqsFrom_call1_post c up _ _
      | exact reqsFrom_call1_put c up _ _
      | exact reqsFrom_call1_delete c up _ _
      | exact reqsFrom_metaRead c up _ _
      | exact reqsFrom_metaMutate c up _ _ _
      | exact reqsFrom_metaErase c up _ _

/-- Every request issued by the third switch part is built from the
selected client. -/
theorem reqsFrom_runSwitchC (c : Client) (up : HttpRequest → UpstreamResult)
    (method : String) (p : Params) : ReqsFrom c (runSwitchC c up method p) := by
  unfold runSwitchC
  repeat'
    first
      | exact reqsFrom_runSwitchD c up method p
      | apply reqsFrom_ite
      | exact reqsFrom_reqFail c _
      | exact reqsFrom_call1_get c up _ _
      | exact reqsFrom_call1_post c up _ _
      | exact reqsFrom_call1_put c up _ _
      | exact reqsFrom_call1_delete c up _ _

/-- Every request issued by the second switch part is built from the
selected client. -/
theorem reqsFrom_runSwitchB (c : Client) (up : HttpRequest → UpstreamResult)
    (method : String) (p : Params) : ReqsFrom c (runSwitchB c up method p) := by
  unfold runSwitchB
  repeat'
    first
      | exact reqsFrom_runSwitchC c up method p
      | apply reqsFrom_ite
      | exact reqsFrom_reqFail c _
      | exact reqsFrom_call1_get c up _ _
      | exact reqsFrom_call1_post c up _ _
      | exact reqsFrom_call1_put c up _ _
      | exact reqsFrom_call1_delete c up _ _

/-- Every request issued by any switch case is built from the selected
client. -/
theorem reqsFrom_runSwitch (c : Client) (up : HttpRequest → UpstreamResult)
    (method : String) (p : Params) : ReqsFrom c (runSwitch c up method p) := by
  unfold runSwitch runSwitchA
  repeat'
    first
      | exact reqsFrom_runSwitchB c up method p
      | apply reqsFrom_ite
      | exact reqsFrom_reqFail c _
      | exact reqsFrom_call1_get c up _ _
      | exact reqsFrom_call1_post c up _ _
      | exact reqsFrom_call1_put c up _ _
      | exact reqsFrom_call1_delete c up _ _

/-- With a WordPress-family method and non-empty site URL, username and
password, the dispatcher runs the switch against the WordPress client. -/
theorem handle_wp_route (cfg : Config) (up : HttpRequest → UpstreamResult)
    (method : String) (p : Params)
    (hwp : method ∈ wpMethods)
    (hsite : (resolveCredentials p cfg).siteUrl ≠ "")
    (hu : (resolveCredentials p cfg).username ≠ "")
    (hpw : (resolveCredentials p cfg).password ≠ "") :
    handleWooCommerceRequest cfg up method p =
      finishDispatch (runSwitch (wpClient (resolveCredentials p cfg)) up method p) := by
  simp [handleWooCommerceRequest, hwp, hsite, hu, hpw]

/-- With a WooCommerce-family method, non-empty site URL and both store
credentials, the dispatcher runs the switch against the WooCommerce
client. -/
theorem handle_woo_route (cfg : Config) (up : HttpRequest → UpstreamResult)
    (method : String) (p : Params)
    (hwp : method ∉ wpMethods)
    (hwoo : method ∈ wooMethods)
    (hsite : (resolveCredentials p cfg).siteUrl ≠ "")
    (hck : (resolveCredentials p cfg).consumerKey ≠ "")
    (hcs : (resolveCredentials p cfg).consumerSecret ≠ "") :
    handleWooCommerceRequest cfg up method p =
      finishDispatch (runSwitch (wooClient (resolveCredentials p cfg)) up method p) := by
  simp [handleWooCommerceRequest, hwp, hwoo, hsite, hck, hcs]

/-- The `create_product_meta` switch case. -/
theorem runSwitch_create_product_meta (c : Client) (up : HttpRequest → UpstreamResult)
    (p : Params) :
    runSwitch c up "create_product_meta" p =
      (if !truthyN p.productId then reqFail "Product ID is required"
       else if !truthyS p.metaKey then reqFail "Meta key is required"
       else if p.metaValue.isNone then reqFail "Meta value is required"
       else metaMutate c up ("/products/" ++ natP p.productId) (p.metaKey.getD "")
        (p.metaValue.getD .null)) := rfl

/-- The `delete_product_meta` switch case. -/
theorem runSwitch_delete_product_meta (c : Client) (up : HttpRequest → UpstreamResult)
    (p : Params) :
    runSwitch c up "delete_product_meta" p =
      (if !truthyN p.productId then reqFail "Product ID is required"
       else if !truthyS p.metaKey then reqFail "Meta key is required"
       else metaErase c up ("/products/" ++ natP p.productId) (p.metaKey.getD "")) := rfl

/-- Claim C1: for a product whose existing `meta_data` has no entry with
key `k`, `create_product_meta` performs a GET of the product followed by a
PUT whose `meta_data` body is the existing sequence with `{key: k, value:
v}` appended at the end — every prior entry kept in its original position
— and returns the `meta_data` field of the PUT response, not the whole
entity. -/
theorem create_product_meta_appends
    (cfg : Config) (up : HttpRequest → UpstreamResult) (p : Params)
    (pid : Nat) (k : String) (v : JsonVal) (ent ent2 : Entity)
    (hpid : p.productId = some pid) (hpid0 : pid ≠ 0)
    (hk : p.metaKey = some k) (hk0 : k ≠ "")
    (hv : p.metaValue = some v)
    (hsite : (resolveCredentials p cfg).siteUrl ≠ "")
    (hck : (resolveCredentials p cfg).consumerKey ≠ "")
    (hcs : (resolveCredentials p cfg).consumerSecret ≠ "")
    (hget : up ((wooClient (resolveCredentials p cfg)).getReq
      ("/products/" ++ toString pid) []) = .ok ent)
    (hmiss : (ent.meta_data.getD []).all (fun m => m.key != k) = true)
    (hput : up ((wooClient (resolveCredentials p cfg)).putReq ("/products/" ++ toString pid)
      (some (.metaData (ent.meta_data.getD [] ++ [⟨k, v⟩])))) = .ok ent2) :
    handleWooCommerceRequest cfg up "create_product_meta" p =
      ([(wooClient (resolveCredentials p cfg)).getReq ("/products/" ++ toString pid) [],
        (wooClient (resolveCredentials p cfg)).putReq ("/products/" ++ toString pid)
          (some (.metaData (ent.meta_data.getD [] ++ [⟨k, v⟩])))],
       .ok (.metaField ent2.meta_data)) := by
  have h1 : truthyN p.productId = true := by simp [truthyN, hpid, hpid0]
  have h2 : truthyS p.metaKey = true := by simp [truthyS, hk, hk0]
  have h3 : p.metaValue.isNone = false := by simp [hv]
  have h4 : natP p.productId = toString pid := by simp [natP, hpid]
  have h5 : p.metaKey.getD "" = k := by simp [hk]
  have h6 : p.metaValue.getD .null = v := by simp [hv]
  rw [handle_woo_route cfg up "create_product_meta" p (by decide) (by decide) hsite hck hcs,
    runSwitch_create_product_meta, h1, h2, h3]
  simp only [Bool.not_true, Bool.false_eq_true, if_false]
  rw [h4, h5, h6]
  simp only [metaMutate, hget, toExcept, upsertMeta,
    findMetaIdx_eq_none (ent.meta_data.getD []) k hmiss, hput, finishDispatch, wrapResult]

/-- A fully configured process environment used by concrete instances. -/
def cfgAll : Config :=
  { siteUrl := "https://store.example", username := "admin", password := "pw",
    consumerKey := "ck0", consumerSecret := "cs0" }

/-- Concrete `create_product_meta` parameters. -/
def pC1 : Params :=
  { Params.empty with productId := some 5, metaKey := some "k", metaValue := some (.str "v") }

/-- An upstream store whose product 5 holds one meta entry `x` and which
echoes the appended list back from the PUT. -/
def upC1 : HttpRequest → UpstreamResult := fun req =>
  match req.verb with
  | .get => .ok { meta_data := some [⟨"x", .num 1⟩] }
  | _ => .ok { meta_data := some [⟨"x", .num 1⟩, ⟨"k", .str "v"⟩] }

/-- Claim C1, witness: the append behaviour at a concrete store. -/
theorem create_product_meta_appends_witness :
    handleWooCommerceRequest cfgAll upC1 "create_product_meta" pC1 =
      ([(wooClient (resolveCredentials pC1 cfgAll)).getReq ("/products/" ++ toString 5) [],
        (wooClient (resolveCredentials pC1 cfgAll)).putReq ("/products/" ++ toString 5)
          (some (.metaData [⟨"x", .num 1⟩, ⟨"k", .str "v"⟩]))],
       .ok (.metaField (some [⟨"x", .num 1⟩, ⟨"k", .str "v"⟩]))) :=
  create_product_meta_appends cfgAll upC1 pC1 5 "k" (.str "v")
    { meta_data := some [⟨"x", .num 1⟩] }
    { meta_data := some [⟨"x", .num 1⟩, ⟨"k", .str "v"⟩] }
    rfl (by decide) rfl (by decide) rfl (by decide) (by decide) (by decide)
    (by decide) (by decide) (by decide)

/-- Claim C2: `delete_product_meta` performs a GET of the product followed
by a PUT whose `meta_data` body is the existing sequence filtered so that
every entry with key `k` is removed — a subsequence of the original, every
surviving entry keyed differently from `k`, and every original entry keyed
differently from `k` surviving — and returns the `meta_data` field of the
PUT response. -/
theorem delete_product_meta_removes
    (cfg : Config) (up : HttpRequest → UpstreamResult) (p : Params)
    (pid : Nat) (k : String) (ent ent2 : Entity)
    (hpid : p.productId = some pid) (hpid0 : pid ≠ 0)
    (hk : p.metaKey = some k) (hk0 : k ≠ "")
    (hsite : (resolveCredentials p cfg).siteUrl ≠ "")
    (hck : (resolveCredentials p cfg).consumerKey ≠ "")
    (hcs : (resolveCredentials p cfg).consumerSecret ≠ "")
    (hget : up ((wooClient (resolveCredentials p cfg)).getReq
      ("/products/" ++ toString pid) []) = .ok ent)
    (hput : up ((wooClient (resolveCredentials p cfg)).putReq ("/products/" ++ toString pid)
      (some (.metaData (removeMeta (ent.meta_data.getD []) k)))) = .ok ent2) :
    handleWooCommerceRequest cfg up "delete_product_meta" p =
      ([(wooClient (resolveCredentials p cfg)).getReq ("/products/" ++ toString pid) [],
        (wooClient (resolveCredentials p cfg)).putReq ("/products/" ++ toString pid)
          (some (.metaData (removeMeta (ent.meta_data.getD []) k)))],
       .ok (.metaField ent2.meta_data)) ∧
    List.Sublist (removeMeta (ent.meta_data.getD []) k) (ent.meta_data.getD []) ∧
    (∀ m ∈ removeMeta (ent.meta_data.getD []) k, m.key ≠ k) ∧
    (∀ m ∈ ent.meta_data.getD [], m.key ≠ k → m ∈ removeMeta (ent.meta_data.getD []) k) := by
  have h1 : truthyN p.productId = true := by simp [truthyN, hpid, hpid0]
  have h2 : truthyS p.metaKey = true := by simp [truthyS, hk, hk0]
  have h4 : natP p.productId = toString pid := by simp [natP, hpid]
  have h5 : p.metaKey.getD "" = k := by simp [hk]
  refine ⟨?_, ?_, ?_, ?_⟩
  · rw [handle_woo_route cfg up "delete_product_meta" p (by decide) (by decide) hsite hck hcs,
      runSwitch_delete_product_meta, h1, h2]
    simp only [Bool.not_true, Bool.false_eq_true, if_false]
    rw [h4, h5]
    simp only [metaErase, hget, toExcept, hput, finishDispatch, wrapResult]
  · exact List.filter_sublist _
  · intro m hm
    exact bne_iff_ne.mp (List.mem_filter.mp hm).2
  · intro m hm hmk
    exact List.mem_filter.mpr ⟨hm, bne_iff_ne.mpr hmk⟩

/-- Concrete `delete_product_meta` parameters. -/
def pC2 : Params := { Params.empty with productId := some 5, metaKey := some "k" }

/-- An upstream store whose product 5 holds two `k` entries interleaved
with others and which echoes the filtered list back from the PUT. -/
def upC2 : HttpRequest → UpstreamResult := fun req =>
  match req.verb with
  | .get =>
    .ok { meta_data := some [⟨"a", .num 1⟩, ⟨"k", .str "x"⟩, ⟨"b", .num 2⟩, ⟨"k", .num 7⟩] }
  | _ => .ok { meta_data := some [⟨"a", .num 1⟩, ⟨"b", .num 2⟩] }

/-- Claim C2, witness: the removal behaviour at a concrete store. -/
theorem delete_product_meta_removes_witness :
    handleWooCommerceRequest cfgAll upC2 "delete_product_meta" pC2 =
      ([(wooClient (resolveCredentials pC2 cfgAll)).getReq ("/products/" ++ toString 5) [],
        (wooClient (resolveCredentials pC2 cfgAll)).putReq ("/products/" ++ toString 5)
          (some (.metaData (removeMeta
            [⟨"a", .num 1⟩, ⟨"k", .str "x"⟩, ⟨"b", .num 2⟩, ⟨"k", .num 7⟩] "k")))],
       .ok (.metaField (some [⟨"a", .num 1⟩, ⟨"b", .num 2⟩]))) :=
  (delete_product_meta_removes cfgAll upC2 pC2 5 "k"
    { meta_data := some [⟨"a", .num 1⟩, ⟨"k", .str "x"⟩, ⟨"b", .num 2⟩, ⟨"k", .num 7⟩] }
    { meta_data := some [⟨"a", .num 1⟩, ⟨"b", .num 2⟩] }
    rfl (by decide) rfl (by decide) (by decide) (by decide) (by decide)
    (by decide) (by decide)).1

/-- Claim C3, counterexample: with no site URL configured anywhere,
`dispatch("nonexistent_method", {})` fails with the missing-site-URL
message, not with `UnknownMethod` — the site-URL presence check runs
before the method lookup, so the lookup is not the first step and the
claim fails for this `params` object. -/
theorem unknown_method_counterexample :
    (handleWooCommerceRequest Config.empty upOkEmpty "nonexistent_method" Params.empty).2 =
      .error siteUrlMsg ∧
    DispatchResult.error siteUrlMsg ≠
      .error ("Unknown method: " ++ "nonexistent_method") := by
  exact ⟨rfl, by decide⟩

/-- Claim C3, amended: for every method name in neither family list, and
every `params` whose resolved site URL is non-empty, dispatch fails with
`UnknownMethod(method)` without issuing any upstream call; the site-URL
presence check precedes the lookup. -/
theorem unknown_method_after_site_check (cfg : Config) (up : HttpRequest → UpstreamResult)
    (method : String) (p : Params)
    (hwp : method ∉ wpMethods)
    (hwoo : method ∉ wooMethods)
    (hsite : (resolveCredentials p cfg).siteUrl ≠ "") :
    handleWooCommerceRequest cfg up method p =
      ([], .error ("Unknown method: " ++ method)) := by
  simp [handleWooCommerceRequest, hwp, hwoo, hsite]

/-- Claim C3, amended witness: the unknown-method failure at a concrete
configured process. -/
theorem unknown_method_after_site_check_witness :
    handleWooCommerceRequest cfgAll upOkEmpty "nonexistent_method" Params.empty =
      ([], .error ("Unknown method: " ++ "nonexistent_method")) :=
  unknown_method_after_site_check cfgAll upOkEmpty "nonexistent_method" Params.empty
    (by decide) (by decide) (by decide)

/-- Claim C4, counterexample: the sse-server dispatcher performs no store
credential check — with a site URL configured but no consumer key or
secret from any source, `get_products` is dispatched upstream and
succeeds rather than failing with `MissingStoreCredentials`. -/
theorem missing_store_credentials_counterexample :
    (sseHandleWooCommerceRequest { Config.empty with siteUrl := "https://b.com" } upOkEmpty
      "get_products" Params.empty).2 = .ok (.entity Entity.empty) ∧
    (∀ m, DispatchResult.ok (.entity Entity.empty) ≠ .error m) ∧
    (sseHandleWooCommerceRequest { Config.empty with siteUrl := "https://b.com" } upOkEmpty
      "get_products" Params.empty).1.length = 1 := by
  refine ⟨rfl, ?_, rfl⟩
  intro m h
  cases h

/-- A process environment with site URL and store credentials only. -/
def cfgStoreOnly : Config :=
  { siteUrl := "https://b.com", consumerKey := "ck", consumerSecret := "cs" }

/-- Claim C4, amended: in the `index.ts` dispatcher, provided the resolved
site URL is non-empty, dispatching any WooCommerce-family method with
either resolved store credential empty fails with the missing-store-
credentials message before any upstream call; and `get_products` with the
key and secret supplied by the request, or by the process defaults, builds
the upstream call. The sse-server dispatcher never performs this check. -/
theorem missing_store_credentials_amended :
    (∀ (cfg : Config) (up : HttpRequest → UpstreamResult) (method : String) (p : Params),
      method ∉ wpMethods → method ∈ wooMethods →
      (resolveCredentials p cfg).siteUrl ≠ "" →
      ((resolveCredentials p cfg).consumerKey = "" ∨
        (resolveCredentials p cfg).consumerSecret = "") →
      handleWooCommerceRequest cfg up method p = ([], .error wooCredsMsg)) ∧
    (handleWooCommerceRequest { Config.empty with siteUrl := "https://b.com" } upOkEmpty
      "get_products"
      { Params.empty with consumerKey := some "ck", consumerSecret := some "cs" }).1.length
      = 1 ∧
    (handleWooCommerceRequest cfgStoreOnly
      upOkEmpty "get_products" Params.empty).1.length = 1 := by
  refine ⟨?_, rfl, rfl⟩
  intro cfg up method p hwp hwoo hsite hmiss
  simp only [handleWooCommerceRequest]
  rw [if_neg hsite]
  rw [if_neg (by simpa using hwp), if_pos (by simpa using hwoo), if_pos hmiss]

/-- Claim C4, amended witness: `get_products` with a configured site URL
but no store credentials from either source fails with the missing-store-
credentials message. -/
theorem missing_store_credentials_amended_witness :
    handleWooCommerceRequest { Config.empty with siteUrl := "https://b.com" } upOkEmpty
      "get_products" Params.empty = ([], .error wooCredsMsg) :=
  missing_store_credentials_amended.1 { Config.empty with siteUrl := "https://b.com" }
    upOkEmpty "get_products" Params.empty (by decide) (by decide) (by decide)
    (Or.inl (by decide))

/-- Claim C5: for each credential field, the resolved value is the
request-supplied value when present and non-empty, and the process-wide
default otherwise; in particular a request `siteUrl` of `https://a.com`
overrides a default of `https://b.com`. -/
theorem credential_resolution_order (p : Params) (cfg : Config) :
    ((resolveCredentials p cfg).siteUrl =
      match p.siteUrl with
      | some s => if s ≠ "" then s else cfg.siteUrl
      | none => cfg.siteUrl) ∧
    ((resolveCredentials p cfg).username =
      match p.username with
      | some s => if s ≠ "" then s else cfg.username
      | none => cfg.username) ∧
    ((resolveCredentials p cfg).password =
      match p.password with
      | some s => if s ≠ "" then s else cfg.password
      | none => cfg.password) ∧
    ((resolveCredentials p cfg).consumerKey =
      match p.consumerKey with
      | some s => if s ≠ "" then s else cfg.consumerKey
      | none => cfg.consumerKey) ∧
    ((resolveCredentials p cfg).consumerSecret =
      match p.consumerSecret with
      | some s => if s ≠ "" then s else cfg.consumerSecret
      | none => cfg.consumerSecret) ∧
    (resolveCredentials { Params.empty with siteUrl := some "https://a.com" }
      { Config.empty with siteUrl := "https://b.com" }).siteUrl = "https://a.com" := by
  refine ⟨?_, ?_, ?_, ?_, ?_, rfl⟩ <;>
    first
      | (cases h : p.siteUrl with
          | none => simp [resolveCredentials, jsOrStr, h]
          | some s => by_cases hs : s = "" <;> simp [resolveCredentials, jsOrStr, h, hs])
      | (cases h : p.username with
          | none => simp [resolveCredentials, jsOrStr, h]
          | some s => by_cases hs : s = "" <;> simp [resolveCredentials, jsOrStr, h, hs])
      | (cases h : p.password with
          | none => simp [resolveCredentials, jsOrStr, h]
          | some s => by_cases hs : s = "" <;> simp [resolveCredentials, jsOrStr, h, hs])
      | (cases h : p.consumerKey with
          | none => simp [resolveCredentials, jsOrStr, h]
          | some s => by_cases hs : s = "" <;> simp [resolveCredentials, jsOrStr, h, hs])
      | (cases h : p.consumerSecret with
          | none => simp [resolveCredentials, jsOrStr, h]
          | some s => by_cases hs : s = "" <;> simp [resolveCredentials, jsOrStr, h, hs])

/-- Claim C6, counterexample: the sse-server WooCommerce client carries an
`Authorization: Basic base64(consumerKey:consumerSecret)` header and no
query-string credentials, so a WooCommerce-family request (here
`get_products`) is not authenticated by `consumer_key`/`consumer_secret`
query parameters. -/
theorem auth_scheme_counterexample :
    (sseHandleWooCommerceRequest cfgStoreOnly upOkEmpty "get_products" Params.empty).1 =
      [(sseClient (resolveCredentials Params.empty cfgStoreOnly)).getReq "/products" []] ∧
    (sseClient (resolveCredentials Params.empty cfgStoreOnly)).authHeader =
      some ("Basic " ++ base64 ("ck" ++ ":" ++ "cs")) ∧
    (sseClient (resolveCredentials Params.empty cfgStoreOnly)).authQuery = [] :=
  ⟨rfl, rfl, rfl⟩

/-- Claim C6, amended: in the `index.ts` dispatcher every request of a
WordPress-family method is built against `{siteUrl}/wp-json/wp/v2` with an
`Authorization: Basic base64(username:password)` header and no
query-string credentials; every request of a WooCommerce-family method is
built against `{siteUrl}/wp-json/wc/v3` with `consumer_key` and
`consumer_secret` query parameters and no Basic header. The sse-server
dispatcher instead gives its WooCommerce client a Basic header. -/
theorem auth_scheme_amended :
    (∀ (cfg : Config) (up : HttpRequest → UpstreamResult) (method : String) (p : Params),
      method ∈ wpMethods →
      (resolveCredentials p cfg).siteUrl ≠ "" →
      (resolveCredentials p cfg).username ≠ "" →
      (resolveCredentials p cfg).password ≠ "" →
      ∀ req ∈ (handleWooCommerceRequest cfg up method p).1,
        req.baseURL = (resolveCredentials p cfg).siteUrl ++ "/wp-json/wp/v2" ∧
        req.authHeader = some ("Basic " ++
          base64 ((resolveCredentials p cfg).username ++ ":" ++
            (resolveCredentials p cfg).password)) ∧
        req.authQuery = []) ∧
    (∀ (cfg : Config) (up : HttpRequest → UpstreamResult) (method : String) (p : Params),
      method ∉ wpMethods → method ∈ wooMethods →
      (resolveCredentials p cfg).siteUrl ≠ "" →
      (resolveCredentials p cfg).consumerKey ≠ "" →
      (resolveCredentials p cfg).consumerSecret ≠ "" →
      ∀ req ∈ (handleWooCommerceRequest cfg up method p).1,
        req.baseURL = (resolveCredentials p cfg).siteUrl ++ "/wp-json/wc/v3" ∧
        req.authQuery = [("consumer_key", (resolveCredentials p cfg).consumerKey),
          ("consumer_secret", (resolveCredentials p cfg).consumerSecret)] ∧
        req.authHeader = none) := by
  constructor
  · intro cfg up method p hm hsite hu hpw req hreq
    rw [handle_wp_route cfg up method p hm hsite hu hpw] at hreq
    have h := reqsFrom_runSwitch (wpClient (resolveCredentials p cfg)) up method p req hreq
    exact ⟨h.1, h.2.2, h.2.1⟩
  · intro cfg up method p hwp hwoo hsite hck hcs req hreq
    rw [handle_woo_route cfg up method p hwp hwoo hsite hck hcs] at hreq
    have h := reqsFrom_runSwitch (wooClient (resolveCredentials p cfg)) up method p req hreq
    exact ⟨h.1, h.2.1, h.2.2⟩

/-- The single request of a concrete `get_products` dispatch. -/
def reqW6 : HttpRequest :=
  (wooClient (resolveCredentials Params.empty cfgStoreOnly)).getReq "/products"
    (listQuery Params.empty)

/-- Claim C6, amended witness: the query-credential scheme of the concrete
`get_products` request. -/
theorem auth_scheme_amended_witness :
    reqW6.baseURL = (resolveCredentials Params.empty cfgStoreOnly).siteUrl ++
      "/wp-json/wc/v3" ∧
    reqW6.authQuery =
      [("consumer_key", (resolveCredentials Params.empty cfgStoreOnly).consumerKey),
       ("consumer_secret", (resolveCredentials Params.empty cfgStoreOnly).consumerSecret)] ∧
    reqW6.authHeader = none :=
  auth_scheme_amended.2 cfgStoreOnly upOkEmpty "get_products" Params.empty (by decide)
    (by decide) (by decide) (by decide) (by decide) reqW6 (by decide)

/-- With both pagination fields and the filters object omitted, the list
query carries exactly the defaults `per_page=10` and `page=1`. -/
theorem listQuery_defaults (p : Params) (h1 : p.perPage = none) (h2 : p.page = none)
    (h3 : p.filters = none) :
    listQuery p = [("per_page", "10"), ("page", "1")] := by
  simp only [listQuery, h1, h2, h3]
  decide

/-- Caller-supplied non-zero pagination values replace the defaults. -/
theorem listQuery_override (p : Params) (n m : Nat) (hn : n ≠ 0) (hm : m ≠ 0)
    (h1 : p.perPage = some n) (h2 : p.page = some m) (h3 : p.filters = none) :
    listQuery p = [("per_page", toString n), ("page", toString m)] := by
  simp [listQuery, jsSpread, jsOrNat, h1, h2, h3, hn, hm]

/-- A filters object whose keys avoid `per_page` and `page` is appended
verbatim after the pagination fields. -/
theorem listQuery_merge (p : Params) (fl : List (String × String))
    (hf : p.filters = some fl)
    (hpp : fl.all (fun q => q.1 ≠ "per_page") = true)
    (hpg : fl.all (fun q => q.1 ≠ "page") = true) :
    listQuery p = [("per_page", toString (jsOrNat p.perPage 10)),
      ("page", toString (jsOrNat p.page 1))] ++ fl := by
  simp only [listQuery, jsSpread, hf, Option.getD_some]
  congr 1
  simp only [ne_eq, decide_not] at hpp hpg
  simp [List.filter_cons, hpp, hpg]

/-- Claim C7, counterexample: the sse-server `get_products` with `perPage`
and `page` omitted issues a request whose query is empty — no `per_page=10`
or `page=1` defaults are applied. -/
theorem pagination_defaults_counterexample :
    (sseHandleWooCommerceRequest cfgStoreOnly upOkEmpty "get_products" Params.empty).1 =
      [(sseClient (resolveCredentials Params.empty cfgStoreOnly)).getReq "/products" []] ∧
    ((sseClient (resolveCredentials Params.empty cfgStoreOnly)).getReq "/products" []).query
      = [] :=
  ⟨rfl, rfl⟩

/-- Claim C7, amended: in the `index.ts` dispatcher the list operations
`get_products`, `get_orders` and `get_customers` each issue one request
whose query is the pagination-and-filters object; that object carries
`per_page=10, page=1` when the caller omits both fields, replaces them
with caller-supplied non-zero values, and appends a filters object with
fresh keys verbatim. The sse-server list handlers apply no defaults. -/
theorem pagination_defaults_amended :
    (∀ (cfg : Config) (up : HttpRequest → UpstreamResult) (p : Params),
      (resolveCredentials p cfg).siteUrl ≠ "" →
      (resolveCredentials p cfg).consumerKey ≠ "" →
      (resolveCredentials p cfg).consumerSecret ≠ "" →
      (handleWooCommerceRequest cfg up "get_products" p).1 =
        [(wooClient (resolveCredentials p cfg)).getReq "/products" (listQuery p)] ∧
      (handleWooCommerceRequest cfg up "get_orders" p).1 =
        [(wooClient (resolveCredentials p cfg)).getReq "/orders" (listQuery p)] ∧
      (handleWooCommerceRequest cfg up "get_customers" p).1 =
        [(wooClient (resolveCredentials p cfg)).getReq "/customers" (listQuery p)]) ∧
    (∀ p : Params, p.perPage = none → p.page = none → p.filters = none →
      listQuery p = [("per_page", "10"), ("page", "1")]) ∧
    (∀ (p : Params) (n m : Nat), n ≠ 0 → m ≠ 0 →
      p.perPage = some n → p.page = some m → p.filters = none →
      listQuery p = [("per_page", toString n), ("page", toString m)]) ∧
    (∀ (p : Params) (fl : List (String × String)), p.filters = some fl →
      fl.all (fun q => q.1 ≠ "per_page") = true →
      fl.all (fun q => q.1 ≠ "page") = true →
      listQuery p = [("per_page", toString (jsOrNat p.perPage 10)),
        ("page", toString (jsOrNat p.page 1))] ++ fl) := by
  refine ⟨?_, listQuery_defaults, ?_, ?_⟩
  · intro cfg up p hsite hck hcs
    refine ⟨?_, ?_, ?_⟩ <;>
      (rw [handle_woo_route cfg up _ p (by decide) (by decide) hsite hck hcs]; rfl)
  · intro p n m hn hm h1 h2 h3
    exact listQuery_override p n m hn hm h1 h2 h3
  · intro p fl hf hpp hpg
    exact listQuery_merge p fl hf hpp hpg

/-- Claim C7, amended witness: the default pagination query of a concrete
`get_products` dispatch. -/
theorem pagination_defaults_amended_witness :
    (handleWooCommerceRequest cfgStoreOnly upOkEmpty "get_products" Params.empty).1 =
      [(wooClient (resolveCredentials Params.empty cfgStoreOnly)).getReq "/products"
        (listQuery Params.empty)] :=
  (pagination_defaults_amended.1 cfgStoreOnly upOkEmpty Params.empty (by decide) (by decide)
    (by decide)).1

/-- Claim C8, counterexample: on the HTTP transport a payload that fails
JSON parsing is answered by the `express.json()` middleware's own 400
error before `app.post('/message')` runs — which is not the claimed
JSON-RPC `-32700`/`id: null` error object. -/
theorem jsonrpc_envelope_errors_counterexample :
    messageEndpoint Config.empty upOkEmpty .malformed = .expressBadRequest ∧
    HttpAnswer.expressBadRequest ≠ .rpc (.failure .null (-32700) "Parse error") :=
  ⟨rfl, by decide⟩

/-- Claim C8, amended: on the stdio transport a JSON parse failure of the
inbound line, and on either transport a decoded request whose `jsonrpc`
field differs from `"2.0"`, is answered with error code `-32700` and
`id: null`; a request whose dispatch fails is answered with error code
`-32000`, the failure's message and the echoed request id, and a
successful dispatch with the result and the echoed id. On the HTTP
transport, a payload that fails JSON parsing is instead rejected by the
`express.json()` body-parsing stage with its default 400 error — the
handler, and hence the `-32700` envelope, is reached only by decoded
bodies. -/
theorem jsonrpc_envelope_errors :
    (∀ (cfg : Config) (up : HttpRequest → UpstreamResult),
      mcpLineResponse cfg up .parseFail = .failure .null (-32700) "Parse error") ∧
    (∀ (cfg : Config) (up : HttpRequest → UpstreamResult) (req : RpcRequest),
      req.jsonrpc ≠ "2.0" →
      mcpLineResponse cfg up (.parsed req) = .failure .null (-32700) "Parse error" ∧
      postMessage cfg up req = .failure .null (-32700) "Parse error") ∧
    (∀ (cfg : Config) (up : HttpRequest → UpstreamResult) (req : RpcRequest) (m : String),
      req.jsonrpc = "2.0" →
      (sseHandleWooCommerceRequest cfg up req.method req.params).2 = .error m →
      mcpLineResponse cfg up (.parsed req) = .failure req.id (-32000) m) ∧
    (∀ (cfg : Config) (up : HttpRequest → UpstreamResult) (req : RpcRequest) (m : String),
      req.jsonrpc = "2.0" → req.method ≠ "initialize" → req.method ≠ "tools/list" →
      (handleWooCommerceRequest cfg up req.method req.params).2 = .error m →
      postMessage cfg up req = .failure req.id (-32000) m) ∧
    (∀ (cfg : Config) (up : HttpRequest → UpstreamResult) (req : RpcRequest)
      (v : DispatchValue), req.jsonrpc = "2.0" →
      (sseHandleWooCommerceRequest cfg up req.method req.params).2 = .ok v →
      mcpLineResponse cfg up (.parsed req) = .success req.id (.dispatched v)) ∧
    (∀ (cfg : Config) (up : HttpRequest → UpstreamResult),
      messageEndpoint cfg up .malformed = .expressBadRequest) ∧
    (∀ (cfg : Config) (up : HttpRequest → UpstreamResult) (req : RpcRequest),
      messageEndpoint cfg up (.decoded req) = .rpc (postMessage cfg up req)) := by
  refine ⟨fun _ _ => rfl, ?_, ?_, ?_, ?_, fun _ _ => rfl, fun _ _ _ => rfl⟩
  · intro cfg up req h
    constructor <;> simp [mcpLineResponse, postMessage, h]
  · intro cfg up req m hj hd
    simp [mcpLineResponse, hj, hd]
  · intro cfg up req m hj hi ht hd
    simp [postMessage, hj, hi, ht, hd]
  · intro cfg up req v hj hd
    simp [mcpLineResponse, hj, hd]

/-- A request whose `jsonrpc` field is not `"2.0"`. -/
def reqBadVersion : RpcRequest := ⟨"1.0", .num 1, "get_products", Params.empty⟩

/-- Claim C8, witness: the `-32700`/`id: null` answer at a concrete
bad-version request. -/
theorem jsonrpc_envelope_errors_witness :
    postMessage Config.empty upOkEmpty reqBadVersion =
      .failure .null (-32700) "Parse error" :=
  (jsonrpc_envelope_errors.2.1 Config.empty upOkEmpty reqBadVersion (by decide)).2

/-- The `get_product` switch case. -/
theorem runSwitch_get_product (c : Client) (up : HttpRequest → UpstreamResult) (p : Params) :
    runSwitch c up "get_product" p =
      (if !truthyN p.productId then reqFail "Product ID is required"
       else call1 up (c.getReq ("/products/" ++ natP p.productId) [])) := rfl

/-- Claim C9, counterexample: an upstream 404 whose body message is
`Not found` makes dispatch fail with message `API error: Not found` — the
upstream body's message is prefixed with `API error: `, so the dispatch
error message is not the upstream message itself. -/
theorem upstream_error_message_counterexample :
    (handleWooCommerceRequest cfgAll
      (fun _ => .httpErr (some "Not found") "Request failed with status code 404")
      "get_product" { Params.empty with productId := some 3 }).2 =
      .error ("API error: Not found") ∧
    DispatchResult.error ("API error: Not found") ≠ .error "Not found" :=
  ⟨rfl, by decide⟩

/-- Claim C9, amended: an upstream failure that carries a response makes
dispatch fail with `API error: ` followed by the response body's `message`
field when that field is present and non-empty, and by the raw transport
message otherwise; a failure without a response propagates unchanged with
the raw transport message; the failing call is the only upstream request
issued — it is never retried. -/
theorem upstream_error_message_amended :
    (∀ (x : List HttpRequest × Except InternalErr DispatchValue) (b : Option String)
      (t : String), x.2 = .error (.axios b t) →
      (finishDispatch x).2 = .error ("API error: " ++ jsOrStr b t) ∧
      (finishDispatch x).1 = x.1) ∧
    (∀ (x : List HttpRequest × Except InternalErr DispatchValue) (t : String),
      x.2 = .error (.plain t) → (finishDispatch x).2 = .error t) ∧
    (∀ (cfg : Config) (up : HttpRequest → UpstreamResult) (p : Params) (pid : Nat)
      (b : Option String) (t : String),
      p.productId = some pid → pid ≠ 0 →
      (resolveCredentials p cfg).siteUrl ≠ "" →
      (resolveCredentials p cfg).consumerKey ≠ "" →
      (resolveCredentials p cfg).consumerSecret ≠ "" →
      up ((wooClient (resolveCredentials p cfg)).getReq ("/products/" ++ toString pid) [])
        = .httpErr b t →
      handleWooCommerceRequest cfg up "get_product" p =
        ([(wooClient (resolveCredentials p cfg)).getReq ("/products/" ++ toString pid) []],
         .error ("API error: " ++ jsOrStr b t))) ∧
    (∀ (cfg : Config) (up : HttpRequest → UpstreamResult) (p : Params) (pid : Nat)
      (t : String),
      p.productId = some pid → pid ≠ 0 →
      (resolveCredentials p cfg).siteUrl ≠ "" →
      (resolveCredentials p cfg).consumerKey ≠ "" →
      (resolveCredentials p cfg).consumerSecret ≠ "" →
      up ((wooClient (resolveCredentials p cfg)).getReq ("/products/" ++ toString pid) [])
        = .netErr t →
      handleWooCommerceRequest cfg up "get_product" p =
        ([(wooClient (resolveCredentials p cfg)).getReq ("/products/" ++ toString pid) []],
         .error t)) := by
  refine ⟨?_, ?_, ?_, ?_⟩
  · rintro ⟨tr, r⟩ b t h
    simp only at h
    subst h
    exact ⟨rfl, rfl⟩
  · rintro ⟨tr, r⟩ t h
    simp only at h
    subst h
    rfl
  · intro cfg up p pid b t hpid hpid0 hsite hck hcs hup
    have h1 : truthyN p.productId = true := by simp [truthyN, hpid, hpid0]
    have h4 : natP p.productId = toString pid := by simp [natP, hpid]
    rw [handle_woo_route cfg up "get_product" p (by decide) (by decide) hsite hck hcs,
      runSwitch_get_product, h1]
    simp only [Bool.not_true, Bool.false_eq_true, if_false]
    rw [h4]
    simp only [call1, hup, toExcept, Except.map, finishDispatch, wrapResult]
  · intro cfg up p pid t hpid hpid0 hsite hck hcs hup
    have h1 : truthyN p.productId = true := by simp [truthyN, hpid, hpid0]
    have h4 : natP p.productId = toString pid := by simp [natP, hpid]
    rw [handle_woo_route cfg up "get_product" p (by decide) (by decide) hsite hck hcs,
      runSwitch_get_product, h1]
    simp only [Bool.not_true, Bool.false_eq_true, if_false]
    rw [h4]
    simp only [call1, hup, toExcept, Except.map, finishDispatch, wrapResult]

/-- Concrete `get_product` parameters. -/
def pC9 : Params := { Params.empty with productId := some 3 }

/-- An upstream that always fails with a 404 carrying a body message. -/
def upC9 : HttpRequest → UpstreamResult :=
  fun _ => .httpErr (some "Not found") "Request failed with status code 404"

/-- Claim C9, amended witness: the normalized message and single-request
trace at a concrete failing upstream. -/
theorem upstream_error_message_amended_witness :
    handleWooCommerceRequest cfgAll upC9 "get_product" pC9 =
      ([(wooClient (resolveCredentials pC9 cfgAll)).getReq ("/products/" ++ toString 3) []],
       .error ("API error: " ++
         jsOrStr (some "Not found") "Request failed with status code 404")) :=
  upstream_error_message_amended.2.2.1 cfgAll upC9 pC9 3 (some "Not found")
    "Request failed with status code 404" rfl (by decide) (by decide) (by decide)
    (by decide) rfl

/-- Parameters carrying every id a delete operation requires, plus the
given `force` value. -/
def forceParams (f : Option Bool) : Params := { Params.empty with
  force := f
  zoneId := some 1
  instanceId := some 1
  slug := some "standard"
  rateId := some 1
  couponId := some 1
  orderId := some 1
  noteId := some 1
  refundId := some 1
  productId := some 1
  variationId := some 1
  attributeId := some 1
  termId := some 1
  categoryId := some 1
  tagId := some 1
  reviewId := some 1
  customerId := some 1
  postId := some 1
  metaId := some 1 }

/-- Claim C10: for the deletes of shipping zones, shipping zone methods,
tax classes, tax rates, coupons, order notes, order refunds, product
variations, attributes, attribute terms, categories, tags, reviews and
post meta, the upstream DELETE query carries `force=true` for every caller
`force` value — `none`, `some false` and `some true` alike, since the
built value is `params.force || true`; only `delete_product`,
`delete_order` and `delete_customer` send `force=false` unless the caller
passes `true`. -/
theorem delete_force_always_true (f : Option Bool) :
    ((handleWooCommerceRequest cfgAll upOkEmpty "delete_shipping_zone"
      (forceParams f)).1.map (fun r => r.query) = [[("force", "true")]]) ∧
    ((handleWooCommerceRequest cfgAll upOkEmpty "delete_shipping_zone_method"
      (forceParams f)).1.map (fun r => r.query) = [[("force", "true")]]) ∧
    ((handleWooCommerceRequest cfgAll upOkEmpty "delete_tax_class"
      (forceParams f)).1.map (fun r => r.query) = [[("force", "true")]]) ∧
    ((handleWooCommerceRequest cfgAll upOkEmpty "delete_tax_rate"
      (forceParams f)).1.map (fun r => r.query) = [[("force", "true")]]) ∧
    ((handleWooCommerceRequest cfgAll upOkEmpty "delete_coupon"
      (forceParams f)).1.map (fun r => r.query) = [[("force", "true")]]) ∧
    ((handleWooCommerceRequest cfgAll upOkEmpty "delete_order_note"
      (forceParams f)).1.map (fun r => r.query) = [[("force", "true")]]) ∧
    ((handleWooCommerceRequest cfgAll upOkEmpty "delete_order_refund"
      (forceParams f)).1.map (fun r => r.query) = [[("force", "true")]]) ∧
    ((handleWooCommerceRequest cfgAll upOkEmpty "delete_product_variation"
      (forceParams f)).1.map (fun r => r.query) = [[("force", "true")]]) ∧
    ((handleWooCommerceRequest cfgAll upOkEmpty "delete_product_attribute"
      (forceParams f)).1.map (fun r => r.query) = [[("force", "true")]]) ∧
    ((handleWooCommerceRequest cfgAll upOkEmpty "delete_attribute_term"
      (forceParams f)).1.map (fun r => r.query) = [[("force", "true")]]) ∧
    ((handleWooCommerceRequest cfgAll upOkEmpty "delete_product_category"
      (forceParams f)).1.map (fun r => r.query) = [[("force", "true")]]) ∧
    ((handleWooCommerceRequest cfgAll upOkEmpty "delete_product_tag"
      (forceParams f)).1.map (fun r => r.query) = [[("force", "true")]]) ∧
    ((handleWooCommerceRequest cfgAll upOkEmpty "delete_product_review"
      (forceParams f)).1.map (fun r => r.query) = [[("force", "true")]]) ∧
    ((handleWooCommerceRequest cfgAll upOkEmpty "delete_post_meta"
      (forceParams f)).1.map (fun r => r.query) = [[("force", "true")]]) ∧
    ((handleWooCommerceRequest cfgAll upOkEmpty "delete_product"
      (forceParams f)).1.map (fun r => r.query) =
      [[("force", if f = some true then "true" else "false")]]) ∧
    ((handleWooCommerceRequest cfgAll upOkEmpty "delete_order"
      (forceParams f)).1.map (fun r => r.query) =
      [[("force", if f = some true then "true" else "false")]]) ∧
    ((handleWooCommerceRequest cfgAll upOkEmpty "delete_customer"
      (forceParams f)).1.map (fun r => r.query) =
      [[("force", if f = some true then "true" else "false")]]) := by
  rcases f with _ | b
  · refine ⟨?_, ?_, ?_, ?_, ?_, ?_, ?_, ?_, ?_, ?_, ?_, ?_, ?_, ?_, ?_, ?_, ?_⟩ <;> decide
  · cases b <;>
      (refine ⟨?_, ?_, ?_, ?_, ?_, ?_, ?_, ?_, ?_, ?_, ?_, ?_, ?_, ?_, ?_, ?_, ?_⟩ <;> decide)
